import Mathlib

/-!
Shallow embedding of the observability server's event store and ingestion
layer (the `db` module and the HTTP handlers of the server entry point).

SQLite tables are modelled as Lean lists of row structures held in a
`DBState`; `INTEGER` columns become `Int` (or `Nat` for counts produced by
`COUNT(*)`), `REAL` columns become `ℚ`, nullable columns become `Option`,
and `TEXT` columns holding serialized JSON are modelled by a concrete
`JsonVal` type.  `AUTOINCREMENT` ids are modelled by per-table counters.
JavaScript truthiness (`x || d`, `x ? a : b`) is modelled by the `js*`
helper functions below: `undefined`/`null` is `none`, and the falsy
values `""` and `0` are treated exactly as the source treats them.
-/

/-- JSON values, as parsed from request bodies and stored (serialized) in
TEXT columns.  REAL numbers are modelled as rationals. -/
inductive JsonVal where
  | null
  | bool (b : Bool)
  | num (q : ℚ)
  | str (s : String)
  | arr (elems : List JsonVal)
  | obj (fields : List (String × JsonVal))

/-- JavaScript falsiness of a JSON value: `null`, `false`, `0` and `""`
are falsy; arrays and objects are always truthy. -/
def JsonVal.isFalsy : JsonVal → Bool
  | .null => true
  | .bool b => !b
  | .num q => q == 0
  | .str s => s == ""
  | .arr _ => false
  | .obj _ => false

/-- Models the JavaScript expression `x || d` for an optional string:
an absent value and the empty string are falsy and yield the default. -/
def jsOrStr (x : Option String) (d : String) : String :=
  match x with
  | none => d
  | some s => if s = "" then d else s

/-- Models the JavaScript expression `x || null` used to bind an optional
string parameter: absent and empty-string both become SQL NULL. -/
def jsStrOrNull (x : Option String) : Option String :=
  match x with
  | none => none
  | some s => if s = "" then none else some s

/-- Models `x || null` for an optional integer: absent and `0` (falsy in
JavaScript) both become SQL NULL. -/
def jsIntOrNull (x : Option Int) : Option Int :=
  match x with
  | none => none
  | some v => if v = 0 then none else some v

/-- Models `x || d` for an optional integer (0 is falsy in JavaScript). -/
def jsOrInt (x : Option Int) (d : Int) : Int :=
  match x with
  | none => d
  | some v => if v = 0 then d else v

/-- JavaScript falsiness of an optional string field (`!x` in the source):
true when the field is absent or the empty string. -/
def jsFalsyStr (x : Option String) : Bool :=
  match x with
  | none => true
  | some s => s == ""

/-- JavaScript truthiness of an optional JSON value. -/
def jsTruthyJson (x : Option JsonVal) : Bool :=
  match x with
  | none => false
  | some j => !j.isFalsy

/-- SQL `COALESCE(?, column)`: the bind parameter if non-NULL, else the
current column value. -/
def coalesce {α : Type} (x : Option α) (y : Option α) : Option α :=
  match x with
  | none => y
  | some v => some v

/-- The human-in-the-loop response JSON posted to the respond endpoint.
The handler stamps `respondedAt`; the remaining response fields are opaque
to the server and abstracted as a single string. -/
structure HITLResponse where
  respondedAt : Int
  body : String
deriving DecidableEq

/-- The JSON object stored in the `humanInTheLoopStatus` column, in the
shapes the server itself reads and writes: a bare status string, an
optional `respondedAt` stamp and an optional recorded response. -/
structure HITLStatus where
  status : String
  respondedAt : Option Int
  response : Option HITLResponse
deriving DecidableEq

/-- A row of the `events` table. -/
structure EventRow where
  id : Int
  source_app : String
  session_id : String
  hook_event_type : String
  payload : JsonVal
  chat : Option JsonVal
  summary : Option String
  timestamp : Int
  humanInTheLoop : Option JsonVal
  humanInTheLoopStatus : Option HITLStatus
  model_name : Option String

/-- A row of the `token_metrics` table. -/
structure TokenRow where
  id : Int
  session_id : String
  source_app : String
  model_name : Option String
  input_tokens : Int
  output_tokens : Int
  total_tokens : Int
  estimated_cost : ℚ
  timestamp : Int
deriving DecidableEq

/-- A row of the `tool_metrics` table.  The `found_vulnerability` INTEGER
column only ever holds the 0/1 written by `insertToolMetric` and is
modelled as a `Bool`. -/
structure ToolRow where
  id : Int
  session_id : String
  source_app : String
  tool_name : String
  tool_type : Option String
  status : String
  duration_ms : Option Int
  found_vulnerability : Bool
  vulnerability_type : Option String
  error_message : Option String
  timestamp : Int
deriving DecidableEq

/-- A row of the `findings` table (`finding_id TEXT UNIQUE`). -/
structure FindingRow where
  id : Int
  session_id : String
  source_app : String
  finding_id : Option String
  vulnerability_type : String
  severity : Option String
  confidence : Option String
  wstg_id : Option String
  tool_used : Option String
  target_url : Option String
  location : Option String
  title : Option String
  description : Option String
  timestamp : Int
deriving DecidableEq

/-- A row of the `wstg_coverage` table (`UNIQUE(session_id, wstg_id)`). -/
structure CoverageRow where
  id : Int
  session_id : String
  source_app : String
  wstg_id : String
  wstg_name : Option String
  status : String
  skip_reason : Option String
  findings_count : Int
  timestamp : Int
deriving DecidableEq

/-- A row of the `sessions` table (`session_id TEXT UNIQUE NOT NULL`).
The `agents_used` column stores a JSON array of strings and is modelled
directly as a list. -/
structure SessionRow where
  id : Int
  session_id : String
  client_name : Option String
  target_url : Option String
  status : String
  started_at : Int
  ended_at : Option Int
  duration_ms : Option Int
  total_tokens : Int
  total_cost : ℚ
  total_findings : Nat
  total_tool_calls : Nat
  agents_used : List String
  wstg_coverage_pct : ℚ
deriving DecidableEq

/-- The persistent database state: one list per table, plus the
AUTOINCREMENT counters. -/
structure DBState where
  nextEventId : Int
  nextTokenId : Int
  nextToolId : Int
  nextFindingId : Int
  nextCoverageId : Int
  nextSessionId : Int
  events : List EventRow
  tokenMetrics : List TokenRow
  toolMetrics : List ToolRow
  findings : List FindingRow
  wstgCoverage : List CoverageRow
  sessions : List SessionRow

/-- A fresh database, as produced by `initDatabase` (empty tables,
AUTOINCREMENT rowids starting at 1). -/
def emptyDB : DBState :=
  { nextEventId := 1, nextTokenId := 1, nextToolId := 1, nextFindingId := 1
    nextCoverageId := 1, nextSessionId := 1
    events := [], tokenMetrics := [], toolMetrics := []
    findings := [], wstgCoverage := [], sessions := [] }

/-- The incoming `HookEvent` JSON body of `POST /events`, before
validation: every required field may be absent. -/
structure HookEventInput where
  source_app : Option String
  session_id : Option String
  hook_event_type : Option String
  payload : Option JsonVal
  chat : Option JsonVal
  summary : Option String
  timestamp : Option Int
  humanInTheLoop : Option JsonVal
  humanInTheLoopStatus : Option HITLStatus
  model_name : Option String

/-- A validated `HookEvent` as consumed by `insertEvent` (the TypeScript
type has the four required fields non-optional). -/
structure HookEvent where
  source_app : String
  session_id : String
  hook_event_type : String
  payload : JsonVal
  chat : Option JsonVal
  summary : Option String
  timestamp : Option Int
  humanInTheLoop : Option JsonVal
  humanInTheLoopStatus : Option HITLStatus
  model_name : Option String

/-- Models `insertEvent`: assigns the next rowid, defaults the timestamp
to `Date.now()` (`now`), initializes `humanInTheLoopStatus` to `pending`
when a truthy `humanInTheLoop` is present without a status, and appends
the row.  The source returns the input spread with the assigned id,
timestamp and status; we return the stored row, which carries the same
claim-relevant fields. -/
def insertEvent (event : HookEvent) (now : Int) (s : DBState) : EventRow × DBState :=
  let timestamp := jsOrInt event.timestamp now
  let hitlStatus :=
    match event.humanInTheLoopStatus with
    | some st => some st
    | none =>
      if jsTruthyJson event.humanInTheLoop then
        some { status := "pending", respondedAt := none, response := none }
      else none
  let row : EventRow :=
    { id := s.nextEventId
      source_app := event.source_app
      session_id := event.session_id
      hook_event_type := event.hook_event_type
      payload := event.payload
      chat := if jsTruthyJson event.chat then event.chat else none
      summary := jsStrOrNull event.summary
      timestamp := timestamp
      humanInTheLoop := if jsTruthyJson event.humanInTheLoop then event.humanInTheLoop else none
      humanInTheLoopStatus := hitlStatus
      model_name := jsStrOrNull event.model_name }
  (row, { s with nextEventId := s.nextEventId + 1, events := s.events ++ [row] })

/-- The value `getFilterOptions` returns. -/
structure FilterOptions where
  source_apps : List String
  session_ids : List String
  hook_event_types : List String

/-- SQLite's default `ORDER BY` comparison on TEXT columns (byte order),
as a decidable relation on strings (lexicographic on the char list). -/
def sqlLe (a b : String) : Prop := a.data ≤ b.data

/-- Descending variant of `sqlLe`, for `ORDER BY ... DESC`. -/
def sqlGe (a b : String) : Prop := b.data ≤ a.data

instance : DecidableRel sqlLe := fun a b => inferInstanceAs (Decidable (a.data ≤ b.data))

instance : DecidableRel sqlGe := fun a b => inferInstanceAs (Decidable (b.data ≤ a.data))

/-- Strict descending byte order on strings. -/
def sqlGt (a b : String) : Prop := b.data < a.data

instance : DecidableRel sqlGt := fun a b => inferInstanceAs (Decidable (b.data < a.data))

instance : IsTrans String sqlGt := ⟨fun _ _ _ h1 h2 => lt_trans h2 h1⟩

/-- Boolean check that a string list is strictly descending (adjacent
pairs only). -/
def strChainGt : List String → Bool
  | a :: b :: rest => decide (sqlGt a b) && strChainGt (b :: rest)
  | _ => true

/-- Models `getFilterOptions`: three DISTINCT queries over `events`,
`source_app` and `hook_event_type` ordered ascending, and `session_id`
ordered descending with `LIMIT 300`. -/
def getFilterOptions (s : DBState) : FilterOptions :=
  { source_apps := List.insertionSort sqlLe (s.events.map (·.source_app)).dedup
    session_ids := (List.insertionSort sqlGe (s.events.map (·.session_id)).dedup).take 300
    hook_event_types := List.insertionSort sqlLe (s.events.map (·.hook_event_type)).dedup }

/-- Models `updateEventHITLResponse`: unconditionally overwrites the
`humanInTheLoopStatus` of the event with the given id with a `responded`
status carrying the response and its `respondedAt` stamp, then re-selects
the row (`none` when no such id exists). -/
def updateEventHITLResponse (id : Int) (response : HITLResponse) (s : DBState) :
    Option EventRow × DBState :=
  let newStatus : HITLStatus :=
    { status := "responded", respondedAt := some response.respondedAt
      response := some response }
  let events' := s.events.map fun r =>
    if r.id = id then { r with humanInTheLoopStatus := some newStatus } else r
  let s' := { s with events := events' }
  (events'.find? (fun r => r.id == id), s')

/-- The `TokenMetric` JSON body accepted by `insertTokenMetric`. -/
structure TokenMetricInput where
  session_id : String
  source_app : String
  model_name : Option String
  input_tokens : Int
  output_tokens : Int
  total_tokens : Int
  estimated_cost : ℚ
  timestamp : Option Int

/-- The `ToolMetric` JSON body accepted by `insertToolMetric`. -/
structure ToolMetricInput where
  session_id : String
  source_app : String
  tool_name : String
  tool_type : Option String
  status : String
  duration_ms : Option Int
  found_vulnerability : Bool
  vulnerability_type : Option String
  error_message : Option String
  timestamp : Option Int

/-- The `Finding` JSON body accepted by `insertFinding`. -/
structure FindingInput where
  session_id : String
  source_app : String
  finding_id : Option String
  vulnerability_type : String
  severity : Option String
  confidence : Option String
  wstg_id : Option String
  tool_used : Option String
  target_url : Option String
  location : Option String
  title : Option String
  description : Option String
  timestamp : Option Int

/-- The `WSTGCoverage` JSON body accepted by `insertWSTGCoverage`. -/
structure CoverageInput where
  session_id : String
  source_app : String
  wstg_id : String
  wstg_name : Option String
  status : String
  skip_reason : Option String
  findings_count : Int
  timestamp : Option Int

/-- Models the private helper `updateSessionTokens`: adds the metric's
tokens and cost to the aggregates of the session row with the given
session id (a no-op when no such row exists). -/
def updateSessionTokens (sessionId : String) (tokens : Int) (cost : ℚ) (s : DBState) : DBState :=
  { s with sessions := s.sessions.map fun r =>
      if r.session_id = sessionId then
        { r with total_tokens := r.total_tokens + tokens, total_cost := r.total_cost + cost }
      else r }

/-- Models the private helper `updateSessionToolCount`: recomputes
`total_tool_calls` as `COUNT(*)` over the session's `tool_metrics` rows. -/
def updateSessionToolCount (sessionId : String) (s : DBState) : DBState :=
  { s with sessions := s.sessions.map fun r =>
      if r.session_id = sessionId then
        { r with total_tool_calls := (s.toolMetrics.filter (fun m => m.session_id == sessionId)).length }
      else r }

/-- Models the private helper `updateSessionFindingCount`: recomputes
`total_findings` as `COUNT(*)` over the session's `findings` rows. -/
def updateSessionFindingCount (sessionId : String) (s : DBState) : DBState :=
  { s with sessions := s.sessions.map fun r =>
      if r.session_id = sessionId then
        { r with total_findings := (s.findings.filter (fun f => f.session_id == sessionId)).length }
      else r }

/-- The WSTG coverage percentage formula of the source's SQL CASE
expression: `executed * 100.0 / (COUNT(*) - not_applicable)` when the
denominator is positive, else 0. -/
def wstgPct (rows : List CoverageRow) : ℚ :=
  let total := rows.length
  let notApplicable := (rows.filter (fun r => r.status == "not_applicable")).length
  let executed := (rows.filter (fun r => r.status == "executed")).length
  if (total : Int) - notApplicable > 0 then
    (executed * 100 : ℚ) / ((total : ℚ) - (notApplicable : ℚ))
  else 0

/-- Models the private helper `updateSessionWSTGCoverage`: recomputes
`wstg_coverage_pct` from the session's `wstg_coverage` rows. -/
def updateSessionWSTGCoverage (sessionId : String) (s : DBState) : DBState :=
  { s with sessions := s.sessions.map fun r =>
      if r.session_id = sessionId then
        { r with wstg_coverage_pct := wstgPct (s.wstgCoverage.filter (fun c => c.session_id == sessionId)) }
      else r }

/-- Models `insertTokenMetric`: appends the row (timestamp defaulted to
now), then incrementally adds tokens and cost to the owning session.
The source also returns the enriched input; the returned row is not used
by any claim and is elided. -/
def insertTokenMetric (metric : TokenMetricInput) (now : Int) (s : DBState) : DBState :=
  let timestamp := jsOrInt metric.timestamp now
  let row : TokenRow :=
    { id := s.nextTokenId
      session_id := metric.session_id
      source_app := metric.source_app
      model_name := jsStrOrNull metric.model_name
      input_tokens := metric.input_tokens
      output_tokens := metric.output_tokens
      total_tokens := metric.total_tokens
      estimated_cost := metric.estimated_cost
      timestamp := timestamp }
  let s' := { s with nextTokenId := s.nextTokenId + 1, tokenMetrics := s.tokenMetrics ++ [row] }
  updateSessionTokens metric.session_id metric.total_tokens metric.estimated_cost s'

/-- Models `insertToolMetric`: appends the row, then recomputes the
owning session's tool-call count. -/
def insertToolMetric (metric : ToolMetricInput) (now : Int) (s : DBState) : DBState :=
  let timestamp := jsOrInt metric.timestamp now
  let row : ToolRow :=
    { id := s.nextToolId
      session_id := metric.session_id
      source_app := metric.source_app
      tool_name := metric.tool_name
      tool_type := jsStrOrNull metric.tool_type
      status := metric.status
      duration_ms := jsIntOrNull metric.duration_ms
      found_vulnerability := metric.found_vulnerability
      vulnerability_type := jsStrOrNull metric.vulnerability_type
      error_message := jsStrOrNull metric.error_message
      timestamp := timestamp }
  let s' := { s with nextToolId := s.nextToolId + 1, toolMetrics := s.toolMetrics ++ [row] }
  updateSessionToolCount metric.session_id s'

/-- Tests whether an existing findings row conflicts with the inserted
finding on the UNIQUE `finding_id` column (NULL never conflicts). -/
def findingConflicts (newId : Option String) (r : FindingRow) : Bool :=
  newId.isSome && r.finding_id == newId

/-- Models `insertFinding` (`INSERT OR REPLACE` keyed on the UNIQUE
`finding_id`): deletes any conflicting row, appends a fresh row with
severity defaulted to `medium` and confidence to `possible`, then
recomputes the owning session's finding count. -/
def insertFinding (finding : FindingInput) (now : Int) (s : DBState) : DBState :=
  let timestamp := jsOrInt finding.timestamp now
  let row : FindingRow :=
    { id := s.nextFindingId
      session_id := finding.session_id
      source_app := finding.source_app
      finding_id := finding.finding_id
      vulnerability_type := finding.vulnerability_type
      severity := some (jsOrStr finding.severity "medium")
      confidence := some (jsOrStr finding.confidence "possible")
      wstg_id := jsStrOrNull finding.wstg_id
      tool_used := jsStrOrNull finding.tool_used
      target_url := jsStrOrNull finding.target_url
      location := jsStrOrNull finding.location
      title := jsStrOrNull finding.title
      description := jsStrOrNull finding.description
      timestamp := timestamp }
  let s' := { s with nextFindingId := s.nextFindingId + 1
                     findings := (s.findings.filter (fun r => !findingConflicts finding.finding_id r)) ++ [row] }
  updateSessionFindingCount finding.session_id s'

/-- Models `insertWSTGCoverage` (`INSERT OR REPLACE` keyed on
`UNIQUE(session_id, wstg_id)`): deletes the session's previous row for
the same WSTG id, appends the fresh row, then recomputes the owning
session's coverage percentage. -/
def insertWSTGCoverage (coverage : CoverageInput) (now : Int) (s : DBState) : DBState :=
  let timestamp := jsOrInt coverage.timestamp now
  let row : CoverageRow :=
    { id := s.nextCoverageId
      session_id := coverage.session_id
      source_app := coverage.source_app
      wstg_id := coverage.wstg_id
      wstg_name := jsStrOrNull coverage.wstg_name
      status := coverage.status
      skip_reason := jsStrOrNull coverage.skip_reason
      findings_count := coverage.findings_count
      timestamp := timestamp }
  let s' := { s with nextCoverageId := s.nextCoverageId + 1
                     wstgCoverage := (s.wstgCoverage.filter
                       (fun r => !(r.session_id == coverage.session_id && r.wstg_id == coverage.wstg_id))) ++ [row] }
  updateSessionWSTGCoverage coverage.session_id s'

/-- The `Partial<SessionSummary> & session_id` body accepted by
`upsertSession`. -/
structure SessionUpsert where
  session_id : String
  client_name : Option String
  target_url : Option String
  status : Option String
  started_at : Option Int
  ended_at : Option Int
  duration_ms : Option Int
  agents_used : Option (List String)

/-- Models `getSession`: `SELECT * FROM sessions WHERE session_id = ?`
(first matching row). -/
def getSession (sessionId : String) (s : DBState) : Option SessionRow :=
  s.sessions.find? (fun r => r.session_id == sessionId)

/-- Models `upsertSession`: when a row with the session id exists, each of
`client_name`, `target_url`, `status`, `ended_at` and `duration_ms` is
overwritten via `COALESCE(?, column)` (the bind being NULL whenever the
field is absent or JavaScript-falsy); otherwise a fresh row is inserted
with status defaulting to `running`, `started_at` defaulting to now, and
zeroed aggregate columns (the table defaults). -/
def upsertSession (session : SessionUpsert) (now : Int) (s : DBState) :
    Option SessionRow × DBState :=
  match s.sessions.find? (fun r => r.session_id == session.session_id) with
  | some _ =>
    let sessions' := s.sessions.map fun r =>
      if r.session_id = session.session_id then
        { r with
          client_name := coalesce (jsStrOrNull session.client_name) r.client_name
          target_url := coalesce (jsStrOrNull session.target_url) r.target_url
          status := (jsStrOrNull session.status).getD r.status
          ended_at := coalesce (jsIntOrNull session.ended_at) r.ended_at
          duration_ms := coalesce (jsIntOrNull session.duration_ms) r.duration_ms }
      else r
    let s' := { s with sessions := sessions' }
    (getSession session.session_id s', s')
  | none =>
    let row : SessionRow :=
      { id := s.nextSessionId
        session_id := session.session_id
        client_name := jsStrOrNull session.client_name
        target_url := jsStrOrNull session.target_url
        status := jsOrStr session.status "running"
        started_at := jsOrInt session.started_at now
        ended_at := none
        duration_ms := none
        total_tokens := 0
        total_cost := 0
        total_findings := 0
        total_tool_calls := 0
        agents_used := session.agents_used.getD []
        wstg_coverage_pct := 0 }
    let s' := { s with nextSessionId := s.nextSessionId + 1, sessions := s.sessions ++ [row] }
    (getSession session.session_id s', s')

/-- The optional `?session_id=` filter shared by all read-side queries
(the `whereClause` pattern of the source). -/
def bySession {α : Type} (sessionId : Option String) (sidOf : α → String) (rows : List α) : List α :=
  match sessionId with
  | none => rows
  | some sid => rows.filter (fun r => sidOf r == sid)

/-- SQL `SUM(CASE WHEN cond THEN 1 ELSE 0 END)` over a list of rows. -/
def sumCase {α : Type} (p : α → Bool) (rows : List α) : Nat :=
  rows.foldl (fun acc r => acc + (if p r then 1 else 0)) 0

/-- One entry of the tool-effectiveness report. -/
structure ToolReport where
  tool_name : String
  total_calls : Nat
  success_count : Nat
  failure_count : Nat
  timeout_count : Nat
  success_rate : ℚ
  avg_duration_ms : ℚ
  vulnerabilities_found : Nat

/-- The per-tool aggregate row of `getToolEffectivenessReport`'s GROUP BY
query.  Note `AVG(CASE WHEN duration_ms IS NOT NULL THEN duration_ms ELSE
0 END)`: NULL durations enter the average as 0, so the divisor is the
full row count of the group. -/
def toolReportFor (t : String) (rows : List ToolRow) : ToolReport :=
  let rs := rows.filter (fun r => r.tool_name == t)
  let total := rs.length
  let succ := sumCase (fun r => r.status == "success") rs
  let durationSum : ℚ := rs.foldl (fun acc r => acc + ((r.duration_ms.getD 0 : Int) : ℚ)) 0
  { tool_name := t
    total_calls := total
    success_count := succ
    failure_count := sumCase (fun r => r.status == "failure") rs
    timeout_count := sumCase (fun r => r.status == "timeout") rs
    success_rate := if total > 0 then (succ : ℚ) / (total : ℚ) * 100 else 0
    avg_duration_ms := if total = 0 then 0 else durationSum / (total : ℚ)
    vulnerabilities_found := sumCase (fun r => r.found_vulnerability) rs }

/-- Descending order on report entries for `ORDER BY total_calls DESC`. -/
def byCallsDesc (a b : ToolReport) : Prop := b.total_calls ≤ a.total_calls

instance : DecidableRel byCallsDesc := fun a b => inferInstanceAs (Decidable (b.total_calls ≤ a.total_calls))

/-- Models `getToolEffectivenessReport`: one aggregate entry per distinct
`tool_name` (optionally restricted to one session), ordered by
`total_calls DESC`. -/
def getToolEffectivenessReport (sessionId : Option String) (s : DBState) : List ToolReport :=
  let rows := bySession sessionId (·.session_id) s.toolMetrics
  let names := (rows.map (·.tool_name)).dedup
  List.insertionSort byCallsDesc (names.map (fun t => toolReportFor t rows))

/-- Modelled from the spec: the claimed `avg_duration_ms`, the mean of
`duration_ms` taken over only the rows whose `duration_ms` is non-null
(0 when there are none).  Used solely to compare the spec's words with
the source's aggregate. -/
def specMeanDurationNonNull (rows : List ToolRow) : ℚ :=
  let ds := rows.filterMap (·.duration_ms)
  if ds.length = 0 then 0 else ((ds.map (fun d : Int => (d : ℚ))).sum) / (ds.length : ℚ)

/-- Sets key `k` to `n` in a JavaScript-object-as-record, overwriting an
existing entry (`record[k] = n`). -/
def assocSet (l : List (String × Nat)) (k : String) (n : Nat) : List (String × Nat) :=
  if l.any (fun p => p.1 == k) then l.map (fun p => if p.1 == k then (k, n) else p)
  else l ++ [(k, n)]

/-- Reads key `k` from a JavaScript-object-as-record (`record[k]`),
`none` when the key was never assigned. -/
def recordGet (l : List (String × Nat)) (k : String) : Option Nat :=
  match l with
  | [] => none
  | p :: ps => if p.1 = k then some p.2 else recordGet ps k

/-- The GROUP BY groups of a column: each distinct value paired with its
row count. -/
def groupCounts {α β : Type} [BEq β] [DecidableEq β] (keyOf : α → β) (rows : List α) : List (β × Nat) :=
  ((rows.map keyOf).dedup).map (fun v => (v, rows.countP (fun r => keyOf r == v)))

/-- Folds GROUP BY groups into the JavaScript record, bucketing each
group key through `bucket` (`record[bucket(v)] = count`, later groups
overwriting earlier ones exactly as repeated assignment does). -/
def bucketed (bucket : Option String → String) (groups : List (Option String × Nat)) :
    List (String × Nat) :=
  groups.foldl (fun acc g => assocSet acc (bucket g.1) g.2) []

/-- The value of `getFindingSummary`. -/
structure FindingSummary where
  total_findings : Nat
  by_severity : List (String × Nat)
  by_type : List (String × Nat)
  by_agent : List (String × Nat)
  by_confidence : List (String × Nat)

/-- Models `getFindingSummary`: total count plus GROUP BY breakdowns;
NULL severity and confidence fall into the `unknown` bucket (the
JavaScript `row.severity || 'unknown'`, so an empty string would too). -/
def getFindingSummary (sessionId : Option String) (s : DBState) : FindingSummary :=
  let rows := bySession sessionId (·.session_id) s.findings
  { total_findings := rows.length
    by_severity := bucketed (fun v => jsOrStr v "unknown") (groupCounts (·.severity) rows)
    by_type := (groupCounts (·.vulnerability_type) rows).foldl
      (fun acc g => assocSet acc g.1 g.2) []
    by_agent := (groupCounts (·.source_app) rows).foldl
      (fun acc g => assocSet acc g.1 g.2) []
    by_confidence := bucketed (fun v => jsOrStr v "unknown") (groupCounts (·.confidence) rows) }

/-- One per-category entry of the WSTG coverage report. -/
structure CategoryStat where
  executed : Nat
  total : Nat
  percentage : ℚ

/-- The value of `getWSTGCoverageReport`.  The source's `partial` count
field is named `partCount` here (`partial` is a Lean keyword). -/
structure WSTGReport where
  total_tests : Nat
  executed : Nat
  skipped : Nat
  partCount : Nat
  not_applicable : Nat
  coverage_percentage : ℚ
  by_category : List (String × CategoryStat)

/-- SQLite `SUBSTR(wstg_id, 6, 4)`: four characters starting at the sixth
(for ids like `WSTG-INPV-05` this is the category segment). -/
def wstgCategory (wstgId : String) : String :=
  String.mk ((wstgId.data.drop 5).take 4)

/-- Models `getWSTGCoverageReport`: counts by status over the (optionally
session-filtered) coverage rows, the coverage percentage over the
`not_applicable`-excluded total, and the per-category breakdown grouped
on `SUBSTR(wstg_id, 6, 4)`. -/
def getWSTGCoverageReport (sessionId : Option String) (s : DBState) : WSTGReport :=
  let rows := bySession sessionId (·.session_id) s.wstgCoverage
  let total := rows.length
  let executed := sumCase (fun r => r.status == "executed") rows
  let notApplicable := sumCase (fun r => r.status == "not_applicable") rows
  let cats := (rows.map (fun r => wstgCategory r.wstg_id)).dedup
  let applicableTests : Int := (total : Int) - (notApplicable : Int)
  { total_tests := total
    executed := executed
    skipped := sumCase (fun r => r.status == "skipped") rows
    partCount := sumCase (fun r => r.status == "partial") rows
    not_applicable := notApplicable
    coverage_percentage :=
      if applicableTests > 0 then (executed : ℚ) / (applicableTests : ℚ) * 100 else 0
    by_category := cats.map fun c =>
      let catRows := rows.filter (fun r => wstgCategory r.wstg_id == c)
      let catExecuted := sumCase (fun r => r.status == "executed") catRows
      (c, { executed := catExecuted
            total := catRows.length
            percentage := if catRows.length > 0 then
              (catExecuted : ℚ) / (catRows.length : ℚ) * 100 else 0 }) }

/-- A message pushed to every connected dashboard client after a
successful write. -/
inductive BroadcastMsg where
  | event (e : EventRow)
  | tokenUpdate
  | toolUpdate
  | findingUpdate
  | wstgUpdate
  | sessionUpdate

/-- The JSON body of an HTTP response of the events endpoint. -/
inductive EventsRespBody where
  | err (msg : String)
  | stored (e : EventRow)

/-- The observable outcome of one HTTP request: status code, JSON body,
the database afterwards, and the messages broadcast to the connected
clients (in send order). -/
structure HandlerResult where
  status : Nat
  body : EventsRespBody
  db : DBState
  broadcasts : List BroadcastMsg

/-- The `POST /events` validation: `!source_app || !session_id ||
!hook_event_type || !payload` on the parsed JSON body. -/
def missingRequiredFields (b : HookEventInput) : Bool :=
  jsFalsyStr b.source_app || jsFalsyStr b.session_id ||
  jsFalsyStr b.hook_event_type || !jsTruthyJson b.payload

/-- The validated body handed to `insertEvent` (the source passes the
same object on; the `getD` defaults are unreachable after validation). -/
def toHookEvent (b : HookEventInput) : HookEvent :=
  { source_app := b.source_app.getD ""
    session_id := b.session_id.getD ""
    hook_event_type := b.hook_event_type.getD ""
    payload := b.payload.getD JsonVal.null
    chat := b.chat
    summary := b.summary
    timestamp := b.timestamp
    humanInTheLoop := b.humanInTheLoop
    humanInTheLoopStatus := b.humanInTheLoopStatus
    model_name := b.model_name }

/-- Models the `POST /events` handler: on a missing required field it
responds 400 with `Missing required fields`, persists nothing and
broadcasts nothing; otherwise it inserts the event, broadcasts it to all
clients and returns the stored event with status 200. -/
def handleEventsPost (b : HookEventInput) (now : Int) (s : DBState) : HandlerResult :=
  if missingRequiredFields b then
    { status := 400, body := .err "Missing required fields", db := s, broadcasts := [] }
  else
    let (saved, s') := insertEvent (toHookEvent b) now s
    { status := 200, body := .stored saved, db := s', broadcasts := [.event saved] }

/-- One call to one of the four metric insert operations. -/
inductive MetricOp where
  | token (m : TokenMetricInput)
  | tool (m : ToolMetricInput)
  | finding (f : FindingInput)
  | wstg (c : CoverageInput)

/-- The session id an operation's metric row carries. -/
def MetricOp.sessionId : MetricOp → String
  | .token m => m.session_id
  | .tool m => m.session_id
  | .finding f => f.session_id
  | .wstg c => c.session_id

/-- The finding id of a finding insert (`none` for the other three
operations, and for a finding posted without one). -/
def MetricOp.findingId : MetricOp → Option String
  | .finding f => f.finding_id
  | _ => none

/-- Applies one metric write, with its wall-clock time. -/
def applyOp (op : MetricOp) (now : Int) (s : DBState) : DBState :=
  match op with
  | .token m => insertTokenMetric m now s
  | .tool m => insertToolMetric m now s
  | .finding f => insertFinding f now s
  | .wstg c => insertWSTGCoverage c now s

/-- Applies a sequence of metric writes (each paired with its wall-clock
time), left to right — the serialized write order of the store. -/
def applyOps (ops : List (MetricOp × Int)) (s : DBState) : DBState :=
  ops.foldl (fun st p => applyOp p.1 p.2 st) s

/-- The aggregate-consistency relation of §3 of the spec between a
session row and its child rows: counts and percentage recomputed,
tokens and cost summed. -/
def sessionAggregatesCorrect (s : DBState) (row : SessionRow) : Prop :=
  row.total_tool_calls = (s.toolMetrics.filter (fun m => m.session_id == row.session_id)).length ∧
  row.total_findings = (s.findings.filter (fun f => f.session_id == row.session_id)).length ∧
  row.wstg_coverage_pct = wstgPct (s.wstgCoverage.filter (fun c => c.session_id == row.session_id)) ∧
  row.total_tokens = ((s.tokenMetrics.filter (fun m => m.session_id == row.session_id)).map (·.total_tokens)).sum ∧
  row.total_cost = ((s.tokenMetrics.filter (fun m => m.session_id == row.session_id)).map (·.estimated_cost)).sum

/-- All four metric tables are empty (no metric has been written yet). -/
def metricTablesEmpty (s : DBState) : Prop :=
  s.tokenMetrics = [] ∧ s.toolMetrics = [] ∧ s.findings = [] ∧ s.wstgCoverage = []

/-- Every session row still carries the zeroed aggregate defaults it was
created with. -/
def freshAggregates (row : SessionRow) : Prop :=
  row.total_tokens = 0 ∧ row.total_cost = 0 ∧ row.total_findings = 0 ∧
  row.total_tool_calls = 0 ∧ row.wstg_coverage_pct = 0

/-- No two finding inserts of the sequence reuse a `finding_id` across
different sessions. -/
def findingIdsSessionConsistent (ops : List (MetricOp × Int)) : Prop :=
  ∀ p ∈ ops, ∀ q ∈ ops, p.1.findingId.isSome → p.1.findingId = q.1.findingId →
    p.1.sessionId = q.1.sessionId

/-- No stored finding row's `finding_id` is reused by a pending finding
insert of a different session. -/
def findingRowsCompatible (s : DBState) (ops : List (MetricOp × Int)) : Prop :=
  ∀ r ∈ s.findings, ∀ p ∈ ops, r.finding_id.isSome → r.finding_id = p.1.findingId →
    r.session_id = p.1.sessionId

instance (row : SessionRow) : Decidable (freshAggregates row) :=
  inferInstanceAs (Decidable (row.total_tokens = 0 ∧ row.total_cost = 0 ∧
    row.total_findings = 0 ∧ row.total_tool_calls = 0 ∧ row.wstg_coverage_pct = 0))

instance (ops : List (MetricOp × Int)) : Decidable (findingIdsSessionConsistent ops) :=
  inferInstanceAs (Decidable (∀ p ∈ ops, ∀ q ∈ ops, p.1.findingId.isSome →
    p.1.findingId = q.1.findingId → p.1.sessionId = q.1.sessionId))

instance : IsTotal String sqlLe := ⟨fun a b => le_total a.data b.data⟩

instance : IsTrans String sqlLe := ⟨fun _ _ _ h1 h2 => le_trans h1 h2⟩

instance : IsTotal String sqlGe := ⟨fun a b => le_total b.data a.data⟩

instance : IsTrans String sqlGe := ⟨fun _ _ _ h1 h2 => le_trans h2 h1⟩

/-- Concrete session-creation call used by the aggregate examples. -/
def mkSessionCall (sid : String) : SessionUpsert :=
  { session_id := sid, client_name := none, target_url := none, status := none
    started_at := none, ended_at := none, duration_ms := none, agents_used := none }

/-- A concrete finding body (all optional descriptive fields empty). -/
def mkFindingCall (sid : String) (fid : String) (sev : Option String) : FindingInput :=
  { session_id := sid, source_app := "agentA", finding_id := some fid
    vulnerability_type := "xss", severity := sev, confidence := some "likely"
    wstg_id := none, tool_used := none, target_url := none, location := none
    title := none, description := none, timestamp := none }

/-- Two sessions created (with zeroed aggregates) before any metric
write. -/
def twoSessionBase : DBState :=
  (upsertSession (mkSessionCall "s2") 2 ((upsertSession (mkSessionCall "s1") 1 emptyDB).2)).2

/-- The finding sequence that makes session `s1` undercounted: `s2`
reuses the `finding_id` first submitted for `s1`. -/
def crossSessionOps : List (MetricOp × Int) :=
  [(MetricOp.finding (mkFindingCall "s1" "F-1" (some "high")), 10)
  , (MetricOp.finding (mkFindingCall "s2" "F-1" (some "low")), 20)]

/-- The database after the cross-session finding sequence. -/
def crossSessionState : DBState := applyOps crossSessionOps twoSessionBase

/-- A well-behaved finding sequence: the duplicate submission stays in
session `s1`. -/
def sameSessionOps : List (MetricOp × Int) :=
  [(MetricOp.finding (mkFindingCall "s1" "F-1" (some "high")), 10)
  , (MetricOp.finding (mkFindingCall "s1" "F-1" (some "low")), 20)]

/-- Coverage rows of the spec's coverage-law example: one session with
items A executed, B not applicable, C skipped. -/
def coverageExampleState : DBState :=
  { emptyDB with wstgCoverage :=
    [ { id := 1, session_id := "s1", source_app := "agentA", wstg_id := "WSTG-INPV-01"
        wstg_name := none, status := "executed", skip_reason := none, findings_count := 0
        timestamp := 1 }
    , { id := 2, session_id := "s1", source_app := "agentA", wstg_id := "WSTG-INPV-02"
        wstg_name := none, status := "not_applicable", skip_reason := none, findings_count := 0
        timestamp := 2 }
    , { id := 3, session_id := "s1", source_app := "agentA", wstg_id := "WSTG-ATHN-01"
        wstg_name := none, status := "skipped", skip_reason := none, findings_count := 0
        timestamp := 3 } ] }

/-- Two calls to tool X, one with a NULL duration: the stored rows behind
the average-duration counterexample. -/
def nullDurationState : DBState :=
  { emptyDB with toolMetrics :=
    [ { id := 1, session_id := "s1", source_app := "agentA", tool_name := "X"
        tool_type := none, status := "success", duration_ms := some 100
        found_vulnerability := false, vulnerability_type := none, error_message := none
        timestamp := 1 }
    , { id := 2, session_id := "s1", source_app := "agentA", tool_name := "X"
        tool_type := none, status := "success", duration_ms := none
        found_vulnerability := false, vulnerability_type := none, error_message := none
        timestamp := 2 } ] }

/-- Three calls to tool X (two successes, one failure), the spec's
tool-effectiveness example. -/
def threeCallState : DBState :=
  { emptyDB with toolMetrics :=
    [ { id := 1, session_id := "s1", source_app := "agentA", tool_name := "X"
        tool_type := none, status := "success", duration_ms := some 100
        found_vulnerability := false, vulnerability_type := none, error_message := none
        timestamp := 1 }
    , { id := 2, session_id := "s1", source_app := "agentA", tool_name := "X"
        tool_type := none, status := "success", duration_ms := some 50
        found_vulnerability := false, vulnerability_type := none, error_message := none
        timestamp := 2 }
    , { id := 3, session_id := "s1", source_app := "agentA", tool_name := "X"
        tool_type := none, status := "failure", duration_ms := none
        found_vulnerability := false, vulnerability_type := none, error_message := none
        timestamp := 3 } ] }

/-- The recorded HITL response of the first respond call. -/
def respondFirst : HITLResponse := { respondedAt := 10, body := "approve" }

/-- A second, later response to the same event. -/
def respondSecond : HITLResponse := { respondedAt := 20, body := "deny" }

/-- An event whose HITL status has already left `pending` (it was
responded to at time 10). -/
def respondedEventState : DBState :=
  { emptyDB with nextEventId := 2, events :=
    [ { id := 1, source_app := "agentA", session_id := "s1", hook_event_type := "HITL"
        payload := JsonVal.null, chat := none, summary := none, timestamp := 1
        humanInTheLoop := some (JsonVal.obj []), model_name := none
        humanInTheLoopStatus := some
          { status := "responded", respondedAt := some 10, response := some respondFirst } } ] }

/-- A session created directly in the `completed` state. -/
def completedSessionState : DBState :=
  (upsertSession { session_id := "s1", client_name := none, target_url := none
                   status := some "completed", started_at := some 1, ended_at := some 2
                   duration_ms := none, agents_used := none } 1 emptyDB).2

/-- A later upsert that hands the terminal session a `running` status. -/
def reopenCall : SessionUpsert :=
  { session_id := "s1", client_name := none, target_url := none, status := some "running"
    started_at := none, ended_at := none, duration_ms := none, agents_used := none }

/-- The spec's missing-field scenario: a `POST /events` body without a
`session_id`. -/
def missingSessionBody : HookEventInput :=
  { source_app := some "agentA", session_id := none, hook_event_type := some "PreToolUse"
    payload := some (JsonVal.obj [("tool_name", JsonVal.str "Bash")]), chat := none
    summary := none, timestamp := none, humanInTheLoop := none
    humanInTheLoopStatus := none, model_name := none }

/-- A finding posted without severity and confidence. -/
def noSeverityFinding : FindingInput :=
  { session_id := "s1", source_app := "agentA", finding_id := some "F-9"
    vulnerability_type := "sqli", severity := none, confidence := none
    wstg_id := none, tool_used := none, target_url := none, location := none
    title := none, description := none, timestamp := some 5 }

/-- One of 301 events with pairwise distinct session ids `"400"` down to
`"100"`; the session `"100"` (index 300) carries the most recent
timestamp of all. -/
def manySessionEvent (n : Nat) : EventRow :=
  { id := (n : Int) + 1, source_app := "agentA", session_id := toString (400 - n)
    hook_event_type := "PreToolUse", payload := JsonVal.null, chat := none, summary := none
    timestamp := if n = 300 then 9999 else ((400 : Int) - (n : Int))
    humanInTheLoop := none, humanInTheLoopStatus := none, model_name := none }

/-- A store with 301 distinct session ids (more than the LIMIT 300). -/
def manySessionState : DBState :=
  { emptyDB with events := (List.range 301).map manySessionEvent }

/-- The 301 distinct session ids of `manySessionState`, in insertion
order `"400"` down to `"100"`. -/
def manySessionIds : List String := (List.range 301).map (fun n => toString (400 - n))

/-- A store holding one existing session row with every field populated. -/
def frameBaseState : DBState :=
  { emptyDB with nextSessionId := 2, sessions :=
    [ { id := 1, session_id := "s1", client_name := some "acme", target_url := some "https://t"
        status := "running", started_at := 1, ended_at := none, duration_ms := none
        total_tokens := 7, total_cost := 3/2, total_findings := 2, total_tool_calls := 4
        agents_used := ["recon"], wstg_coverage_pct := 50 } ] }

/-- An upsert of the existing session providing only a status and an end
time. -/
def frameUpdCall : SessionUpsert :=
  { session_id := "s1", client_name := none, target_url := none, status := some "completed"
    started_at := none, ended_at := some 9, duration_ms := none, agents_used := none }


theorem foldl_add_ite {α : Type} (p : α → Bool) :
    ∀ (l : List α) (acc : Nat), l.foldl (fun a r => a + (if p r then 1 else 0)) acc = acc + l.countP p := by
  intro l
  induction l with
  | nil => intro acc; simp
  | cons x xs ih =>
    intro acc
    rw [List.foldl_cons, ih, List.countP_cons]
    by_cases h : p x = true <;> simp [h] <;> omega

theorem sumCase_eq_countP {α : Type} (p : α → Bool) (l : List α) :
    sumCase p l = l.countP p := by
  have := foldl_add_ite p l 0
  simpa [sumCase] using this

theorem foldl_add_eq_sum {α : Type} (f : α → ℚ) :
    ∀ (l : List α) (acc : ℚ), l.foldl (fun a r => a + f r) acc = acc + (l.map f).sum := by
  intro l
  induction l with
  | nil => intro acc; simp
  | cons x xs ih =>
    intro acc
    rw [List.foldl_cons, ih]
    simp [add_assoc]

theorem filter_not_conflict_by_sid (fid : Option String) (fsid : String) (l : List FindingRow)
    (sid : String) (hne : sid ≠ fsid)
    (hcompat : ∀ r ∈ l, r.finding_id.isSome → r.finding_id = fid → r.session_id = fsid) :
    (l.filter (fun r => !findingConflicts fid r)).filter (fun r => r.session_id == sid) =
      l.filter (fun r => r.session_id == sid) := by
  rw [List.filter_filter]
  refine List.filter_congr ?_
  intro r hr
  by_cases hs : r.session_id = sid
  · cases hx : findingConflicts fid r with
    | false => simp [hs, hx]
    | true =>
      exfalso
      have hx' := hx
      simp only [findingConflicts, Bool.and_eq_true, beq_iff_eq] at hx'
      obtain ⟨hsome, heq⟩ := hx'
      have hsome' : r.finding_id.isSome := by rw [heq]; exact hsome
      have := hcompat r hr hsome' heq
      rw [hs] at this
      exact hne this
  · simp [hs]

theorem filter_not_samekey_by_sid (csid wid : String) (l : List CoverageRow) (sid : String)
    (hne : sid ≠ csid) :
    (l.filter (fun r => !(r.session_id == csid && r.wstg_id == wid))).filter
        (fun r => r.session_id == sid) =
      l.filter (fun r => r.session_id == sid) := by
  rw [List.filter_filter]
  refine List.filter_congr ?_
  intro r _
  by_cases hs : r.session_id = sid
  · simp [hs, hne]
  · simp [hs]

theorem filter_merged_samekey (csid wid sid : String) (l : List CoverageRow) (hne : ¬sid = csid) :
    l.filter (fun a => a.session_id == sid && (!(a.session_id == csid) || !(a.wstg_id == wid))) =
      l.filter (fun a => a.session_id == sid) := by
  refine List.filter_congr ?_
  intro a _
  by_cases hs : a.session_id = sid
  · simp [hs, hne]
  · simp [hs]

theorem inv_insertTokenMetric (m : TokenMetricInput) (now : Int) (s : DBState)
    (h : ∀ row ∈ s.sessions, sessionAggregatesCorrect s row) :
    ∀ row ∈ (insertTokenMetric m now s).sessions,
      sessionAggregatesCorrect (insertTokenMetric m now s) row := by
  intro row hrow
  simp only [insertTokenMetric, updateSessionTokens, List.mem_map] at hrow
  obtain ⟨r, hr, rfl⟩ := hrow
  obtain ⟨h1, h2, h3, h4, h5⟩ := h r hr
  by_cases hsid : r.session_id = m.session_id
  · refine ⟨?_, ?_, ?_, ?_, ?_⟩ <;>
      simp [insertTokenMetric, updateSessionTokens, sessionAggregatesCorrect, hsid,
        List.filter_append, h1, h2, h3, h4, h5]
  · refine ⟨?_, ?_, ?_, ?_, ?_⟩ <;>
      simp [insertTokenMetric, updateSessionTokens, sessionAggregatesCorrect, hsid,
        List.filter_append, Ne.symm hsid, h1, h2, h3, h4, h5]

theorem inv_insertToolMetric (m : ToolMetricInput) (now : Int) (s : DBState)
    (h : ∀ row ∈ s.sessions, sessionAggregatesCorrect s row) :
    ∀ row ∈ (insertToolMetric m now s).sessions,
      sessionAggregatesCorrect (insertToolMetric m now s) row := by
  intro row hrow
  simp only [insertToolMetric, updateSessionToolCount, List.mem_map] at hrow
  obtain ⟨r, hr, rfl⟩ := hrow
  obtain ⟨h1, h2, h3, h4, h5⟩ := h r hr
  by_cases hsid : r.session_id = m.session_id
  · refine ⟨?_, ?_, ?_, ?_, ?_⟩ <;>
      simp [insertToolMetric, updateSessionToolCount, sessionAggregatesCorrect, hsid,
        List.filter_append, h1, h2, h3, h4, h5]
  · refine ⟨?_, ?_, ?_, ?_, ?_⟩ <;>
      simp [insertToolMetric, updateSessionToolCount, sessionAggregatesCorrect, hsid,
        List.filter_append, Ne.symm hsid, h1, h2, h3, h4, h5]

theorem inv_insertWSTGCoverage (c : CoverageInput) (now : Int) (s : DBState)
    (h : ∀ row ∈ s.sessions, sessionAggregatesCorrect s row) :
    ∀ row ∈ (insertWSTGCoverage c now s).sessions,
      sessionAggregatesCorrect (insertWSTGCoverage c now s) row := by
  intro row hrow
  simp only [insertWSTGCoverage, updateSessionWSTGCoverage, List.mem_map] at hrow
  obtain ⟨r, hr, rfl⟩ := hrow
  obtain ⟨h1, h2, h3, h4, h5⟩ := h r hr
  by_cases hsid : r.session_id = c.session_id
  · refine ⟨?_, ?_, ?_, ?_, ?_⟩ <;>
      simp [insertWSTGCoverage, updateSessionWSTGCoverage, sessionAggregatesCorrect, hsid,
        List.filter_append, h1, h2, h3, h4, h5]
  · have hredir := filter_merged_samekey c.session_id c.wstg_id r.session_id s.wstgCoverage hsid
    refine ⟨?_, ?_, ?_, ?_, ?_⟩ <;>
      simp [insertWSTGCoverage, updateSessionWSTGCoverage, sessionAggregatesCorrect, hsid,
        List.filter_append, Ne.symm hsid, hredir, h1, h2, h3, h4, h5]

theorem inv_insertFinding (f : FindingInput) (now : Int) (s : DBState)
    (h : ∀ row ∈ s.sessions, sessionAggregatesCorrect s row)
    (hcompat : ∀ r ∈ s.findings, r.finding_id.isSome → r.finding_id = f.finding_id →
      r.session_id = f.session_id) :
    ∀ row ∈ (insertFinding f now s).sessions,
      sessionAggregatesCorrect (insertFinding f now s) row := by
  intro row hrow
  simp only [insertFinding, updateSessionFindingCount, List.mem_map] at hrow
  obtain ⟨r, hr, rfl⟩ := hrow
  obtain ⟨h1, h2, h3, h4, h5⟩ := h r hr
  by_cases hsid : r.session_id = f.session_id
  · refine ⟨?_, ?_, ?_, ?_, ?_⟩ <;>
      simp [insertFinding, updateSessionFindingCount, sessionAggregatesCorrect, hsid,
        List.filter_append, h1, h2, h3, h4, h5]
  · have hredir := filter_not_conflict_by_sid f.finding_id f.session_id s.findings
      r.session_id (by exact hsid) hcompat
    refine ⟨?_, ?_, ?_, ?_, ?_⟩ <;>
      simp [insertFinding, updateSessionFindingCount, sessionAggregatesCorrect, hsid,
        List.filter_append, Ne.symm hsid, hredir, h1, h2, h3, h4, h5]

theorem inv_applyOps : ∀ (ops : List (MetricOp × Int)) (s : DBState),
    (∀ row ∈ s.sessions, sessionAggregatesCorrect s row) →
    findingRowsCompatible s ops →
    findingIdsSessionConsistent ops →
    ∀ row ∈ (applyOps ops s).sessions, sessionAggregatesCorrect (applyOps ops s) row := by
  intro ops
  induction ops with
  | nil => intro s hInv _ _; simpa [applyOps] using hInv
  | cons p rest ih =>
    obtain ⟨op, t⟩ := p
    intro s hInv hCompat hCons
    have happ : applyOps ((op, t) :: rest) s = applyOps rest (applyOp op t s) := rfl
    rw [happ]
    apply ih
    · cases op with
      | token m => exact inv_insertTokenMetric m t s hInv
      | tool m => exact inv_insertToolMetric m t s hInv
      | wstg c => exact inv_insertWSTGCoverage c t s hInv
      | finding f =>
        apply inv_insertFinding f t s hInv
        intro r hr hsome heq
        exact hCompat r hr (MetricOp.finding f, t) (List.mem_cons_self _ _) hsome heq
    · intro r hr q hq hsome heq
      cases op with
      | token m =>
        exact hCompat r hr q (List.mem_cons_of_mem _ hq) hsome heq
      | tool m =>
        exact hCompat r hr q (List.mem_cons_of_mem _ hq) hsome heq
      | wstg c =>
        exact hCompat r hr q (List.mem_cons_of_mem _ hq) hsome heq
      | finding f =>
        simp only [applyOp, insertFinding, updateSessionFindingCount, List.mem_append,
          List.mem_filter] at hr
        rcases hr with ⟨hold, _⟩ | hnew
        · exact hCompat r hold q (List.mem_cons_of_mem _ hq) hsome heq
        · rw [List.mem_singleton] at hnew
          have hrf : r.finding_id = f.finding_id := by rw [hnew]
          have hrs : r.session_id = f.session_id := by rw [hnew]
          rw [hrs]
          have hfid : (MetricOp.finding f, t).1.findingId = f.finding_id := rfl
          have := hCons (MetricOp.finding f, t) (List.mem_cons_self _ _) q
            (List.mem_cons_of_mem _ hq)
          rw [hfid] at this
          exact this (by rw [← hrf]; exact hsome) (by rw [← hrf]; exact heq)
    · intro a ha b hb
      exact hCons a (List.mem_cons_of_mem _ ha) b (List.mem_cons_of_mem _ hb)

/-- Claim C7: a `POST /events` request whose body is missing any of
`source_app`, `session_id`, `hook_event_type` or `payload` is answered
400 with the JSON body `Missing required fields`, no event row is
persisted, and no message is broadcast to any connected client. -/
theorem eventsPost_missing_field_rejected (b : HookEventInput) (now : Int) (s : DBState)
    (h : b.source_app = none ∨ b.session_id = none ∨ b.hook_event_type = none ∨
      b.payload = none) :
    (handleEventsPost b now s).status = 400 ∧
    (handleEventsPost b now s).body = EventsRespBody.err "Missing required fields" ∧
    (handleEventsPost b now s).db = s ∧
    (handleEventsPost b now s).broadcasts = [] := by
  have hm : missingRequiredFields b = true := by
    rcases h with h | h | h | h <;>
      simp [missingRequiredFields, jsFalsyStr, jsTruthyJson, h]
  simp [handleEventsPost, hm]

/-- Witness for C7 at the spec's missing-field scenario (no `session_id`). -/
theorem eventsPost_missing_field_rejected_witness :
    missingSessionBody.session_id = none ∧
    ((handleEventsPost missingSessionBody 5 emptyDB).status = 400 ∧
     (handleEventsPost missingSessionBody 5 emptyDB).body =
       EventsRespBody.err "Missing required fields" ∧
     (handleEventsPost missingSessionBody 5 emptyDB).db = emptyDB ∧
     (handleEventsPost missingSessionBody 5 emptyDB).broadcasts = []) :=
  ⟨rfl, eventsPost_missing_field_rejected missingSessionBody 5 emptyDB (Or.inr (Or.inl rfl))⟩

/-- Claim C10: on an existing session, `upsertSession` only touches
`client_name`, `target_url`, `status`, `ended_at` and `duration_ms` —
each only when the argument is provided — and leaves the id, start time,
aggregate columns, `agents_used` and every other table unchanged. -/
theorem upsertSession_frame (s : DBState) (u : SessionUpsert) (now : Int)
    (hex : (s.sessions.find? (fun r => r.session_id == u.session_id)).isSome = true) :
    List.Forall₂ (fun old new =>
      new.id = old.id ∧ new.session_id = old.session_id ∧ new.started_at = old.started_at ∧
      new.total_tokens = old.total_tokens ∧ new.total_cost = old.total_cost ∧
      new.total_findings = old.total_findings ∧ new.total_tool_calls = old.total_tool_calls ∧
      new.agents_used = old.agents_used ∧ new.wstg_coverage_pct = old.wstg_coverage_pct ∧
      (u.client_name = none → new.client_name = old.client_name) ∧
      (u.target_url = none → new.target_url = old.target_url) ∧
      (u.status = none → new.status = old.status) ∧
      (u.ended_at = none → new.ended_at = old.ended_at) ∧
      (u.duration_ms = none → new.duration_ms = old.duration_ms) ∧
      (old.session_id ≠ u.session_id → new = old))
      s.sessions ((upsertSession u now s).2).sessions ∧
    ((upsertSession u now s).2).events = s.events ∧
    ((upsertSession u now s).2).tokenMetrics = s.tokenMetrics ∧
    ((upsertSession u now s).2).toolMetrics = s.toolMetrics ∧
    ((upsertSession u now s).2).findings = s.findings ∧
    ((upsertSession u now s).2).wstgCoverage = s.wstgCoverage := by
  rw [Option.isSome_iff_exists] at hex
  obtain ⟨r0, hr0⟩ := hex
  refine ⟨?_, ?_, ?_, ?_, ?_, ?_⟩ <;> simp only [upsertSession, hr0]
  · rw [List.forall₂_map_right_iff, List.forall₂_same]
    intro x _
    by_cases hsid : x.session_id = u.session_id
    · exact ⟨by simp [hsid], by simp [hsid], by simp [hsid], by simp [hsid], by simp [hsid],
        by simp [hsid], by simp [hsid], by simp [hsid], by simp [hsid],
        fun h => by simp [hsid, h, jsStrOrNull, coalesce],
        fun h => by simp [hsid, h, jsStrOrNull, coalesce],
        fun h => by simp [hsid, h, jsStrOrNull],
        fun h => by simp [hsid, h, jsIntOrNull, coalesce],
        fun h => by simp [hsid, h, jsIntOrNull, coalesce],
        fun hne => absurd hsid hne⟩
    · simp [hsid]

/-- Witness for C10: the frame property at a concrete populated session
row updated with only a status and an end time. -/
theorem upsertSession_frame_witness :
    (frameBaseState.sessions.find?
      (fun r => r.session_id == frameUpdCall.session_id)).isSome = true ∧
    (List.Forall₂ (fun old new =>
      new.id = old.id ∧ new.session_id = old.session_id ∧ new.started_at = old.started_at ∧
      new.total_tokens = old.total_tokens ∧ new.total_cost = old.total_cost ∧
      new.total_findings = old.total_findings ∧ new.total_tool_calls = old.total_tool_calls ∧
      new.agents_used = old.agents_used ∧ new.wstg_coverage_pct = old.wstg_coverage_pct ∧
      (frameUpdCall.client_name = none → new.client_name = old.client_name) ∧
      (frameUpdCall.target_url = none → new.target_url = old.target_url) ∧
      (frameUpdCall.status = none → new.status = old.status) ∧
      (frameUpdCall.ended_at = none → new.ended_at = old.ended_at) ∧
      (frameUpdCall.duration_ms = none → new.duration_ms = old.duration_ms) ∧
      (old.session_id ≠ frameUpdCall.session_id → new = old))
      frameBaseState.sessions ((upsertSession frameUpdCall 9 frameBaseState).2).sessions ∧
    ((upsertSession frameUpdCall 9 frameBaseState).2).events = frameBaseState.events ∧
    ((upsertSession frameUpdCall 9 frameBaseState).2).tokenMetrics = frameBaseState.tokenMetrics ∧
    ((upsertSession frameUpdCall 9 frameBaseState).2).toolMetrics = frameBaseState.toolMetrics ∧
    ((upsertSession frameUpdCall 9 frameBaseState).2).findings = frameBaseState.findings ∧
    ((upsertSession frameUpdCall 9 frameBaseState).2).wstgCoverage = frameBaseState.wstgCoverage) :=
  ⟨by decide, upsertSession_frame frameBaseState frameUpdCall 9 (by decide)⟩

/-- Counterexample to claim C6: a session whose status is `completed`
(terminal) is put back to `running` by a later `upsertSession` call that
provides a status — terminality is not enforced. -/
theorem upsertSession_reopens_terminal_session :
    (completedSessionState.sessions.map (·.status) = ["completed"]) ∧
    (((upsertSession reopenCall 5 completedSessionState).2).sessions.map (·.status) =
      ["running"]) ∧
    ("completed" : String) ≠ "running" := by
  refine ⟨by decide, by decide, by decide⟩

/-- Claim C6 (amended): a session's status is not terminal — any later
`upsertSession` of an existing session overwrites the status with the
provided (truthy) value, even from `completed`, `failed` or `timeout`;
the status is preserved only when the call provides none. -/
theorem upsertSession_status_overwrite (s : DBState) (u : SessionUpsert) (now : Int)
    (hex : (s.sessions.find? (fun r => r.session_id == u.session_id)).isSome = true) :
    List.Forall₂ (fun old new =>
      (old.session_id = u.session_id → new.status = (jsStrOrNull u.status).getD old.status) ∧
      (old.session_id ≠ u.session_id → new.status = old.status))
      s.sessions ((upsertSession u now s).2).sessions := by
  rw [Option.isSome_iff_exists] at hex
  obtain ⟨r0, hr0⟩ := hex
  simp only [upsertSession, hr0]
  rw [List.forall₂_map_right_iff, List.forall₂_same]
  intro x _
  by_cases hsid : x.session_id = u.session_id
  · simp [hsid]
  · simp [hsid]

/-- Witness for the amended C6: the terminal `completed` session is
handed `running` by the reopening call. -/
theorem upsertSession_status_overwrite_witness :
    (completedSessionState.sessions.find?
      (fun r => r.session_id == reopenCall.session_id)).isSome = true ∧
    List.Forall₂ (fun old new =>
      (old.session_id = reopenCall.session_id →
        new.status = (jsStrOrNull reopenCall.status).getD old.status) ∧
      (old.session_id ≠ reopenCall.session_id → new.status = old.status))
      completedSessionState.sessions
      ((upsertSession reopenCall 5 completedSessionState).2).sessions :=
  ⟨by decide, upsertSession_status_overwrite completedSessionState reopenCall 5 (by decide)⟩

/-- Counterexample to claim C5: an event whose HITL status already left
`pending` (it is `responded` with stamp 10) is overwritten again by a
second `updateEventHITLResponse` call — the transition is not
exactly-once. -/
theorem hitl_responded_event_overwritten :
    (respondedEventState.events.map (·.humanInTheLoopStatus) =
      [some { status := "responded", respondedAt := some 10, response := some respondFirst }]) ∧
    (((updateEventHITLResponse 1 respondSecond respondedEventState).2).events.map
        (·.humanInTheLoopStatus) =
      [some { status := "responded", respondedAt := some 20, response := some respondSecond }]) ∧
    ((⟨"responded", some 10, some respondFirst⟩ : HITLStatus) ≠
      ⟨"responded", some 20, some respondSecond⟩) := by
  refine ⟨by decide, by decide, by decide⟩

/-- Claim C5 (amended): `updateEventHITLResponse` overwrites the
`humanInTheLoopStatus` of the event with the given id to a `responded`
status built from the posted response, unconditionally — whatever the
previous status was, pending or not — while every other field of that
event, every other event, and every other table stay unchanged. -/
theorem updateEventHITLResponse_overwrites (id : Int) (resp : HITLResponse) (s : DBState) :
    List.Forall₂ (fun old new =>
      new.id = old.id ∧ new.source_app = old.source_app ∧ new.session_id = old.session_id ∧
      new.hook_event_type = old.hook_event_type ∧ new.payload = old.payload ∧
      new.chat = old.chat ∧ new.summary = old.summary ∧ new.timestamp = old.timestamp ∧
      new.humanInTheLoop = old.humanInTheLoop ∧ new.model_name = old.model_name ∧
      (old.id = id → new.humanInTheLoopStatus = some
        { status := "responded", respondedAt := some resp.respondedAt,
          response := some resp }) ∧
      (old.id ≠ id → new = old))
      s.events ((updateEventHITLResponse id resp s).2).events ∧
    ((updateEventHITLResponse id resp s).2).tokenMetrics = s.tokenMetrics ∧
    ((updateEventHITLResponse id resp s).2).toolMetrics = s.toolMetrics ∧
    ((updateEventHITLResponse id resp s).2).findings = s.findings ∧
    ((updateEventHITLResponse id resp s).2).wstgCoverage = s.wstgCoverage ∧
    ((updateEventHITLResponse id resp s).2).sessions = s.sessions := by
  refine ⟨?_, rfl, rfl, rfl, rfl, rfl⟩
  simp only [updateEventHITLResponse]
  rw [List.forall₂_map_right_iff, List.forall₂_same]
  intro x _
  by_cases hid : x.id = id
  · exact ⟨by simp [hid], by simp [hid], by simp [hid], by simp [hid], by simp [hid],
      by simp [hid], by simp [hid], by simp [hid], by simp [hid], by simp [hid],
      fun _ => by simp [hid],
      fun hne => absurd hid hne⟩
  · simp [hid]

/-- Witness for the amended C5: the overwrite property applied at the
already-responded event. -/
theorem updateEventHITLResponse_overwrites_witness :
    List.Forall₂ (fun old new =>
      new.id = old.id ∧ new.source_app = old.source_app ∧ new.session_id = old.session_id ∧
      new.hook_event_type = old.hook_event_type ∧ new.payload = old.payload ∧
      new.chat = old.chat ∧ new.summary = old.summary ∧ new.timestamp = old.timestamp ∧
      new.humanInTheLoop = old.humanInTheLoop ∧ new.model_name = old.model_name ∧
      (old.id = 1 → new.humanInTheLoopStatus = some
        { status := "responded", respondedAt := some respondSecond.respondedAt,
          response := some respondSecond }) ∧
      (old.id ≠ 1 → new = old))
      respondedEventState.events
      ((updateEventHITLResponse 1 respondSecond respondedEventState).2).events ∧
    ((updateEventHITLResponse 1 respondSecond respondedEventState).2).tokenMetrics =
      respondedEventState.tokenMetrics ∧
    ((updateEventHITLResponse 1 respondSecond respondedEventState).2).toolMetrics =
      respondedEventState.toolMetrics ∧
    ((updateEventHITLResponse 1 respondSecond respondedEventState).2).findings =
      respondedEventState.findings ∧
    ((updateEventHITLResponse 1 respondSecond respondedEventState).2).wstgCoverage =
      respondedEventState.wstgCoverage ∧
    ((updateEventHITLResponse 1 respondSecond respondedEventState).2).sessions =
      respondedEventState.sessions :=
  updateEventHITLResponse_overwrites 1 respondSecond respondedEventState

/-- Counterexample to claim C1 as stated: sessions `s1` and `s2` both
exist (fresh, no metric writes yet), then an `insertFinding` sequence in
which `s2` reuses the `finding_id` first submitted for `s1`.  The
`INSERT OR REPLACE` deletes `s1`'s row but only `s2`'s count is
recomputed: afterwards `s1.total_findings = 1` while `s1` owns 0
findings rows. -/
theorem session_aggregates_claim_false :
    metricTablesEmpty twoSessionBase ∧
    (∀ row ∈ twoSessionBase.sessions, freshAggregates row) ∧
    ((getSession "s1" crossSessionState).map (·.total_findings) = some 1) ∧
    ((crossSessionState.findings.filter (fun r => r.session_id == "s1")).length = 0) := by
  refine ⟨⟨by decide, by decide, by decide, by decide⟩, by decide, by decide, by decide⟩

/-- Claim C1 (amended): for sessions that exist before their metric
writes, the aggregate invariant holds after any sequence of the four
metric inserts provided no `finding_id` is reused across different
sessions (the cross-session `INSERT OR REPLACE` steal is the only way to
break it): `total_tool_calls`/`total_findings` equal the child row
counts, `wstg_coverage_pct` the recomputed percentage, and
`total_tokens`/`total_cost` the child sums. -/
theorem session_aggregates_invariant (s0 : DBState) (ops : List (MetricOp × Int))
    (hEmpty : metricTablesEmpty s0)
    (hFresh : ∀ row ∈ s0.sessions, freshAggregates row)
    (hCons : findingIdsSessionConsistent ops) :
    ∀ row ∈ (applyOps ops s0).sessions, sessionAggregatesCorrect (applyOps ops s0) row := by
  obtain ⟨e1, e2, e3, e4⟩ := hEmpty
  apply inv_applyOps
  · intro row hrow
    obtain ⟨f1, f2, f3, f4, f5⟩ := hFresh row hrow
    refine ⟨?_, ?_, ?_, ?_, ?_⟩
    · rw [e2]; simpa using f4
    · rw [e3]; simpa using f3
    · rw [e4]; simpa [wstgPct] using f5
    · rw [e1]; simpa using f1
    · rw [e1]; simpa using f2
  · intro r hr
    rw [e3] at hr
    exact absurd hr (List.not_mem_nil r)
  · exact hCons

/-- Witness for the amended C1: the duplicate finding stays in session
`s1`, and both sessions' aggregates match their child rows. -/
theorem session_aggregates_invariant_witness :
    metricTablesEmpty twoSessionBase ∧
    (∀ row ∈ twoSessionBase.sessions, freshAggregates row) ∧
    findingIdsSessionConsistent sameSessionOps ∧
    (∀ row ∈ (applyOps sameSessionOps twoSessionBase).sessions,
      sessionAggregatesCorrect (applyOps sameSessionOps twoSessionBase) row) :=
  ⟨⟨by decide, by decide, by decide, by decide⟩, by decide, by decide,
    session_aggregates_invariant twoSessionBase sameSessionOps
      ⟨by decide, by decide, by decide, by decide⟩ (by decide) (by decide)⟩

theorem applyOps_append (a b : List (MetricOp × Int)) (s : DBState) :
    applyOps (a ++ b) s = applyOps b (applyOps a s) := by
  simp [applyOps, List.foldl_append]

theorem filter_fid_singleton (row : FindingRow) (fid : String)
    (h : row.finding_id ≠ some fid) :
    List.filter (fun r => r.finding_id == some fid) [row] = [] := by
  simp [h]

theorem filter_fid_insertFinding_other (g : FindingInput) (t : Int) (s : DBState) (fid : String)
    (hg : g.finding_id ≠ some fid) :
    (insertFinding g t s).findings.filter (fun r => r.finding_id == some fid) =
      s.findings.filter (fun r => r.finding_id == some fid) := by
  simp only [insertFinding, updateSessionFindingCount, List.filter_append]
  rw [filter_fid_singleton _ fid hg, List.append_nil, List.filter_filter]
  refine List.filter_congr ?_
  intro r _
  by_cases hr : r.finding_id = some fid
  · have hconf : findingConflicts g.finding_id r = false := by
      simp only [findingConflicts, Bool.and_eq_false_iff]
      right
      simp only [beq_eq_false_iff_ne, ne_eq, hr]
      intro hcon
      exact hg hcon.symm
    simp [hr, hconf]
  · simp [hr]

theorem filter_fid_insertFinding_same (f : FindingInput) (t : Int) (s : DBState) (fid : String)
    (hf : f.finding_id = some fid) :
    ((insertFinding f t s).findings.filter (fun r => r.finding_id == some fid)).map
      (·.severity) = [some (jsOrStr f.severity "medium")] := by
  simp only [insertFinding, updateSessionFindingCount, List.filter_append, List.map_append]
  have hleft : (s.findings.filter (fun r => !findingConflicts f.finding_id r)).filter
      (fun r => r.finding_id == some fid) = [] := by
    rw [List.filter_filter, List.filter_eq_nil_iff]
    intro r _
    by_cases hr : r.finding_id = some fid
    · simp [hr, findingConflicts, hf]
    · simp [hr]
  rw [hleft]
  simp [hf]

theorem applyOps_fid_filter (fid : String) :
    ∀ (ops : List (MetricOp × Int)) (s : DBState),
      (∀ op ∈ ops, op.1.findingId ≠ some fid) →
      (applyOps ops s).findings.filter (fun r => r.finding_id == some fid) =
        s.findings.filter (fun r => r.finding_id == some fid) := by
  intro ops
  induction ops with
  | nil => intro s _; rfl
  | cons p rest ih =>
    obtain ⟨op, t⟩ := p
    intro s hops
    have hrest : ∀ op ∈ rest, op.1.findingId ≠ some fid :=
      fun q hq => hops q (List.mem_cons_of_mem _ hq)
    have hstep : (applyOp op t s).findings.filter (fun r => r.finding_id == some fid) =
        s.findings.filter (fun r => r.finding_id == some fid) := by
      cases op with
      | token m => rfl
      | tool m => rfl
      | wstg c => rfl
      | finding f =>
        exact filter_fid_insertFinding_other f t s fid
          (hops (MetricOp.finding f, t) (List.mem_cons_self _ _))
    have hsplit : applyOps ((op, t) :: rest) s = applyOps rest (applyOp op t s) := rfl
    rw [hsplit, ih _ hrest, hstep]

/-- Claim C2: two `insertFinding` calls with the same `finding_id` and
different severities, arbitrarily interleaved with metric writes using
other finding ids, leave exactly one findings row with that id and its
severity is the one of the later call. -/
theorem insertFinding_upsert_last_wins (s : DBState) (pre mid post : List (MetricOp × Int))
    (f1 f2 : FindingInput) (t1 t2 : Int) (fid sev1 sev2 : String)
    (_hf1 : f1.finding_id = some fid) (hf2 : f2.finding_id = some fid)
    (_hs1 : f1.severity = some sev1) (hs2 : f2.severity = some sev2)
    (_hdiff : sev1 ≠ sev2) (hne : sev2 ≠ "")
    (hother : ∀ op ∈ pre ++ mid ++ post, op.1.findingId ≠ some fid) :
    ((applyOps (pre ++ [(MetricOp.finding f1, t1)] ++ mid ++ [(MetricOp.finding f2, t2)] ++ post)
        s).findings.filter (fun r => r.finding_id == some fid)).map (·.severity) = [some sev2] := by
  have hpost : ∀ op ∈ post, op.1.findingId ≠ some fid := by
    intro q hq
    exact hother q (by simp [hq])
  rw [applyOps_append, applyOps_append, applyOps_append, applyOps_append,
    applyOps_fid_filter fid post _ hpost]
  have hone : applyOps [(MetricOp.finding f2, t2)]
      (applyOps mid (applyOps [(MetricOp.finding f1, t1)] (applyOps pre s))) =
      insertFinding f2 t2 (applyOps mid (applyOps [(MetricOp.finding f1, t1)] (applyOps pre s))) :=
    rfl
  rw [hone, filter_fid_insertFinding_same f2 t2 _ fid hf2, hs2]
  simp [jsOrStr, hne]

/-- Witness for C2: the duplicate `F-1` submission (`high` then `low`)
leaves one row with severity `low`. -/
theorem insertFinding_upsert_last_wins_witness :
    (mkFindingCall "s1" "F-1" (some "high")).finding_id = some "F-1" ∧
    (mkFindingCall "s1" "F-1" (some "low")).finding_id = some "F-1" ∧
    (mkFindingCall "s1" "F-1" (some "high")).severity = some "high" ∧
    (mkFindingCall "s1" "F-1" (some "low")).severity = some "low" ∧
    ("high" : String) ≠ "low" ∧ ("low" : String) ≠ "" ∧
    ((applyOps ([] ++ [(MetricOp.finding (mkFindingCall "s1" "F-1" (some "high")), 10)] ++ []
        ++ [(MetricOp.finding (mkFindingCall "s1" "F-1" (some "low")), 20)] ++ [])
        emptyDB).findings.filter (fun r => r.finding_id == some "F-1")).map (·.severity) =
      [some "low"] :=
  ⟨rfl, rfl, rfl, rfl, by decide, by decide,
    insertFinding_upsert_last_wins emptyDB [] [] []
      (mkFindingCall "s1" "F-1" (some "high")) (mkFindingCall "s1" "F-1" (some "low"))
      10 20 "F-1" "high" "low" rfl rfl rfl rfl (by decide) (by decide) (by simp)⟩

/-- Claim C3: `getWSTGCoverageReport` computes `coverage_percentage =
executed / (total - not_applicable) * 100`, 0 when the denominator is 0;
for a session with items A executed, B not applicable, C skipped it
yields 50. -/
theorem coverage_percentage_formula :
    (∀ (sessionId : Option String) (s : DBState),
      (getWSTGCoverageReport sessionId s).coverage_percentage =
        (let rows := bySession sessionId (fun r => r.session_id) s.wstgCoverage
         let executed := (rows.filter (fun r => r.status == "executed")).length
         let notApplicable := (rows.filter (fun r => r.status == "not_applicable")).length
         if rows.length - notApplicable = 0 then 0
         else (executed : ℚ) / ((rows.length : ℚ) - (notApplicable : ℚ)) * 100)) ∧
    (getWSTGCoverageReport (some "s1") coverageExampleState).coverage_percentage = 50 := by
  constructor
  · intro sid s
    simp only [getWSTGCoverageReport, sumCase_eq_countP, List.countP_eq_length_filter]
    have hle : ((bySession sid (fun r => r.session_id) s.wstgCoverage).filter
        (fun r => r.status == "not_applicable")).length ≤
        (bySession sid (fun r => r.session_id) s.wstgCoverage).length :=
      List.length_filter_le _ _
    by_cases h : (bySession sid (fun r => r.session_id) s.wstgCoverage).length -
        ((bySession sid (fun r => r.session_id) s.wstgCoverage).filter
          (fun r => r.status == "not_applicable")).length = 0
    · rw [if_pos h, if_neg (by omega)]
    · rw [if_neg h, if_pos (by omega)]
      push_cast
      ring
  · have h1 : ("executed" : String) ≠ "not_applicable" := by decide
    have h2 : ("skipped" : String) ≠ "not_applicable" := by decide
    have h3 : ("not_applicable" : String) ≠ "executed" := by decide
    have h4 : ("skipped" : String) ≠ "executed" := by decide
    norm_num [getWSTGCoverageReport, coverageExampleState, emptyDB, bySession, sumCase,
      List.foldl_cons, List.foldl_nil, h1, h2, h3, h4]

/-- Counterexample to claim C4: tool X has two rows, durations 100 and
NULL.  The claimed mean over non-null durations is 100, but the source's
`AVG(CASE WHEN duration_ms IS NOT NULL THEN duration_ms ELSE 0 END)`
averages the NULL in as 0 and reports 50. -/
theorem tool_avg_duration_claim_false :
    ((getToolEffectivenessReport none nullDurationState).map (·.avg_duration_ms) = [50]) ∧
    specMeanDurationNonNull nullDurationState.toolMetrics = 100 ∧
    ((50 : ℚ) ≠ 100) := by
  have hdedup : ((bySession none (fun r : ToolRow => r.session_id)
      nullDurationState.toolMetrics).map (·.tool_name)).dedup = ["X"] := by decide
  have hfilter : (bySession none (fun r : ToolRow => r.session_id)
      nullDurationState.toolMetrics).filter (fun r => r.tool_name == "X") =
      nullDurationState.toolMetrics := by decide
  have hds : nullDurationState.toolMetrics.filterMap (fun r => r.duration_ms) = [100] := by
    decide
  refine ⟨?_, ?_, by norm_num⟩
  · rw [getToolEffectivenessReport]
    rw [hdedup]
    simp only [List.map_cons, List.map_nil, List.insertionSort, List.orderedInsert]
    simp only [toolReportFor, hfilter]
    norm_num [nullDurationState, sumCase, List.foldl_cons, List.foldl_nil]
  · rw [specMeanDurationNonNull]
    rw [hds]
    norm_num

/-- Claim C4 (amended): `getToolEffectivenessReport` reports, per
`tool_name`, the row count, the per-status counts, `success_rate =
success_count / total_calls * 100`, the count of vulnerability-finding
calls, and `avg_duration_ms` as the mean of `duration_ms` over all of
the tool's rows with NULL durations counted as 0 (not the mean over only
the non-null rows); every tool with at least one row gets exactly such
an entry. -/
theorem tool_report_correct :
    (∀ (sessionId : Option String) (s : DBState) (e : ToolReport),
      e ∈ getToolEffectivenessReport sessionId s →
      (0 < ((bySession sessionId (fun r => r.session_id) s.toolMetrics).filter
          (fun r => r.tool_name == e.tool_name)).length ∧
       e.total_calls = ((bySession sessionId (fun r => r.session_id) s.toolMetrics).filter
          (fun r => r.tool_name == e.tool_name)).length ∧
       e.success_count = ((bySession sessionId (fun r => r.session_id) s.toolMetrics).filter
          (fun r => r.tool_name == e.tool_name)).countP (fun r => r.status == "success") ∧
       e.failure_count = ((bySession sessionId (fun r => r.session_id) s.toolMetrics).filter
          (fun r => r.tool_name == e.tool_name)).countP (fun r => r.status == "failure") ∧
       e.timeout_count = ((bySession sessionId (fun r => r.session_id) s.toolMetrics).filter
          (fun r => r.tool_name == e.tool_name)).countP (fun r => r.status == "timeout") ∧
       e.success_rate = ((((bySession sessionId (fun r => r.session_id) s.toolMetrics).filter
            (fun r => r.tool_name == e.tool_name)).countP (fun r => r.status == "success") : ℚ) /
          ((((bySession sessionId (fun r => r.session_id) s.toolMetrics).filter
            (fun r => r.tool_name == e.tool_name)).length : ℚ))) * 100 ∧
       e.avg_duration_ms = (((bySession sessionId (fun r => r.session_id) s.toolMetrics).filter
            (fun r => r.tool_name == e.tool_name)).map
            (fun r => ((r.duration_ms.getD 0 : Int) : ℚ))).sum /
          ((((bySession sessionId (fun r => r.session_id) s.toolMetrics).filter
            (fun r => r.tool_name == e.tool_name)).length : ℚ)) ∧
       e.vulnerabilities_found = ((bySession sessionId (fun r => r.session_id) s.toolMetrics).filter
          (fun r => r.tool_name == e.tool_name)).countP (fun r => r.found_vulnerability))) ∧
    (∀ (sessionId : Option String) (s : DBState) (t : String),
      (∃ r ∈ bySession sessionId (fun r => r.session_id) s.toolMetrics, r.tool_name = t) →
      ∃ e ∈ getToolEffectivenessReport sessionId s, e.tool_name = t) := by
  constructor
  · intro sid s e he
    rw [getToolEffectivenessReport] at he
    have he' := (List.perm_insertionSort byCallsDesc _).mem_iff.mp he
    obtain ⟨t, ht, rfl⟩ := List.mem_map.mp he'
    have hpos : 0 < ((bySession sid (fun r => r.session_id) s.toolMetrics).filter
        (fun r => r.tool_name == t)).length := by
      rw [List.mem_dedup] at ht
      obtain ⟨r, hr, hrt⟩ := List.mem_map.mp ht
      refine List.length_pos.mpr (List.ne_nil_of_mem (List.mem_filter.mpr ⟨hr, ?_⟩))
      simp [hrt]
    refine ⟨by simpa [toolReportFor] using hpos, ?_, ?_, ?_, ?_, ?_, ?_, ?_⟩
    · simp [toolReportFor, sumCase_eq_countP]
    · simp [toolReportFor, sumCase_eq_countP]
    · simp [toolReportFor, sumCase_eq_countP]
    · simp [toolReportFor, sumCase_eq_countP]
    · simp only [toolReportFor, sumCase_eq_countP]
      rw [if_pos hpos]
    · simp only [toolReportFor, sumCase_eq_countP]
      rw [if_neg (Nat.pos_iff_ne_zero.mp hpos), foldl_add_eq_sum]
      simp
    · simp [toolReportFor, sumCase_eq_countP]
  · intro sid s t hex
    obtain ⟨r, hr, hrt⟩ := hex
    refine ⟨toolReportFor t (bySession sid (fun r => r.session_id) s.toolMetrics), ?_, rfl⟩
    rw [getToolEffectivenessReport]
    refine (List.perm_insertionSort byCallsDesc _).mem_iff.mpr ?_
    refine List.mem_map.mpr ⟨t, ?_, rfl⟩
    exact List.mem_dedup.mpr (List.mem_map.mpr ⟨r, hr, hrt⟩)

/-- Witness for the amended C4 at the spec's example: 3 calls to X with
2 successes and 1 failure give `total_calls = 3` and `success_rate =
200/3` (66.67 within rounding). -/
theorem tool_report_correct_witness :
    (toolReportFor "X" (bySession none (fun r => r.session_id) threeCallState.toolMetrics) ∈
      getToolEffectivenessReport none threeCallState) ∧
    (toolReportFor "X" (bySession none (fun r => r.session_id)
      threeCallState.toolMetrics)).total_calls = 3 ∧
    (toolReportFor "X" (bySession none (fun r => r.session_id)
      threeCallState.toolMetrics)).success_rate = 200 / 3 := by
  have hmem : toolReportFor "X" (bySession none (fun r => r.session_id)
      threeCallState.toolMetrics) ∈ getToolEffectivenessReport none threeCallState := by
    rw [getToolEffectivenessReport]
    refine (List.perm_insertionSort byCallsDesc _).mem_iff.mpr ?_
    exact List.mem_map.mpr ⟨"X", by decide, rfl⟩
  have hc := tool_report_correct.1 none threeCallState _ hmem
  have hlen : ((bySession none (fun r => r.session_id) threeCallState.toolMetrics).filter
      (fun r => r.tool_name == (toolReportFor "X" (bySession none (fun r => r.session_id)
        threeCallState.toolMetrics)).tool_name)).length = 3 := by decide
  have hcount : ((bySession none (fun r => r.session_id) threeCallState.toolMetrics).filter
      (fun r => r.tool_name == (toolReportFor "X" (bySession none (fun r => r.session_id)
        threeCallState.toolMetrics)).tool_name)).countP (fun r => r.status == "success") = 2 := by
    decide
  refine ⟨hmem, ?_, ?_⟩
  · rw [hc.2.1, hlen]
  · rw [hc.2.2.2.2.2.1, hlen, hcount]
    norm_num

theorem recordGet_map_set (k : String) (n : Nat) :
    ∀ (l : List (String × Nat)), l.any (fun p => p.1 == k) = true →
      recordGet (l.map (fun p => if p.1 == k then (k, n) else p)) k = some n := by
  intro l
  induction l with
  | nil => intro h; simp at h
  | cons p ps ih =>
    intro h
    rw [List.map_cons]
    by_cases hp : p.1 = k
    · rw [if_pos (by simp [hp])]
      simp [recordGet]
    · rw [if_neg (by simp [hp])]
      have h' : ps.any (fun p => p.1 == k) = true := by
        simpa [List.any_cons, hp] using h
      simp only [recordGet]
      rw [if_neg hp]
      exact ih h'

theorem recordGet_append_single (k : String) (n : Nat) :
    ∀ (l : List (String × Nat)), l.any (fun p => p.1 == k) = false →
      recordGet (l ++ [(k, n)]) k = some n := by
  intro l
  induction l with
  | nil => simp [recordGet]
  | cons p ps ih =>
    intro h
    rw [List.any_cons] at h
    have hp : (p.1 == k) = false := by
      cases hx : (p.1 == k)
      · rfl
      · rw [hx] at h; simp at h
    have h' : ps.any (fun p => p.1 == k) = false := by
      rw [hp] at h; simpa using h
    have hp' : ¬p.1 = k := by simpa using hp
    simp [recordGet, hp', ih h']

theorem recordGet_assocSet_self (l : List (String × Nat)) (k : String) (n : Nat) :
    recordGet (assocSet l k n) k = some n := by
  rw [assocSet]
  by_cases h : l.any (fun p => p.1 == k)
  · rw [if_pos h]
    exact recordGet_map_set k n l h
  · rw [if_neg h]
    exact recordGet_append_single k n l (Bool.eq_false_iff.mpr h)

theorem recordGet_map_set_ne (k kp : String) (n : Nat) (hne : kp ≠ k) :
    ∀ (l : List (String × Nat)),
      recordGet (l.map (fun p => if p.1 == kp then (kp, n) else p)) k = recordGet l k := by
  intro l
  induction l with
  | nil => simp
  | cons p ps ih =>
    rw [List.map_cons]
    by_cases hp : p.1 = kp
    · rw [if_pos (by simp [hp])]
      simp only [recordGet]
      rw [if_neg hne, if_neg (by rw [hp]; exact hne)]
      exact ih
    · rw [if_neg (by simp [hp])]
      simp only [recordGet]
      by_cases hq : p.1 = k
      · rw [if_pos hq, if_pos hq]
      · rw [if_neg hq, if_neg hq]
        exact ih

theorem recordGet_append_single_ne (k kp : String) (n : Nat) (hne : kp ≠ k) :
    ∀ (l : List (String × Nat)), recordGet (l ++ [(kp, n)]) k = recordGet l k := by
  intro l
  induction l with
  | nil => simp [recordGet, hne]
  | cons p ps ih =>
    by_cases hp : p.1 = k
    · simp [recordGet, hp]
    · simp [recordGet, hp, ih]

theorem recordGet_assocSet_ne (l : List (String × Nat)) (k kp : String) (n : Nat)
    (hne : kp ≠ k) : recordGet (assocSet l kp n) k = recordGet l k := by
  rw [assocSet]
  by_cases h : l.any (fun p => p.1 == kp)
  · rw [if_pos h]
    exact recordGet_map_set_ne k kp n hne l
  · rw [if_neg h]
    exact recordGet_append_single_ne k kp n hne l

theorem recordGet_bucketed_fold (bucket : Option String → String) (k : String) (n : Nat) :
    ∀ (groups : List (Option String × Nat)) (acc : List (String × Nat)),
      (∀ g ∈ groups, bucket g.1 = k → g.2 = n) →
      ((∃ g ∈ groups, bucket g.1 = k) ∨ recordGet acc k = some n) →
      recordGet (groups.foldl (fun a g => assocSet a (bucket g.1) g.2) acc) k = some n := by
  intro groups
  induction groups with
  | nil =>
    intro acc _ hd
    rcases hd with ⟨g, hg, _⟩ | hd
    · exact absurd hg (List.not_mem_nil g)
    · simpa using hd
  | cons g gs ih =>
    intro acc hall hd
    rw [List.foldl_cons]
    by_cases hb : bucket g.1 = k
    · refine ih _ (fun q hq hqk => hall q (List.mem_cons_of_mem _ hq) hqk) (Or.inr ?_)
      rw [hb, recordGet_assocSet_self, hall g (List.mem_cons_self _ _) hb]
    · refine ih _ (fun q hq hqk => hall q (List.mem_cons_of_mem _ hq) hqk) ?_
      rcases hd with ⟨q, hq, hqk⟩ | hd
      · rcases List.mem_cons.mp hq with rfl | hq2
        · exact absurd hqk hb
        · exact Or.inl ⟨q, hq2, hqk⟩
      · refine Or.inr ?_
        rw [recordGet_assocSet_ne _ _ _ _ hb]
        exact hd

theorem bucket_inv (v : Option String) (k : String) (hk : k ≠ "unknown")
    (h : jsOrStr v "unknown" = k) : v = some k := by
  cases v with
  | none => exact absurd h (by simpa [jsOrStr] using Ne.symm hk)
  | some s =>
    by_cases hs : s = ""
    · rw [jsOrStr, if_pos hs] at h
      exact absurd h (Ne.symm hk)
    · rw [jsOrStr, if_neg hs] at h
      rw [h]

theorem summary_bucket_lookup (rows : List FindingRow) (keyOf : FindingRow → Option String)
    (k : String) (hk : k ≠ "unknown") (hk2 : k ≠ "")
    (hex : ∃ r ∈ rows, keyOf r = some k) :
    recordGet (bucketed (fun v => jsOrStr v "unknown") (groupCounts keyOf rows)) k =
      some (rows.countP (fun r => keyOf r == some k)) := by
  rw [bucketed]
  refine recordGet_bucketed_fold (fun v => jsOrStr v "unknown") k _ (groupCounts keyOf rows)
    [] ?_ ?_
  · intro g hg hgk
    obtain ⟨v, _, rfl⟩ := List.mem_map.mp hg
    have hv : v = some k := bucket_inv v k hk hgk
    rw [hv]
  · left
    obtain ⟨r, hr, hrk⟩ := hex
    refine ⟨(some k, rows.countP (fun r => keyOf r == some k)), ?_, ?_⟩
    · exact List.mem_map.mpr ⟨some k,
        List.mem_dedup.mpr (List.mem_map.mpr ⟨r, hr, hrk⟩), rfl⟩
    · simp [jsOrStr, hk2]

/-- Counterexample to claim C8: a finding submitted with severity and
confidence absent is stored with the insert-time defaults `medium` and
`possible`, so `getFindingSummary` buckets it there — the `unknown`
bucket stays empty. -/
theorem finding_unknown_bucket_claim_false :
    ((getFindingSummary none (insertFinding noSeverityFinding 5 emptyDB)).by_severity =
      [("medium", 1)]) ∧
    ((getFindingSummary none (insertFinding noSeverityFinding 5 emptyDB)).by_confidence =
      [("possible", 1)]) ∧
    (recordGet (getFindingSummary none (insertFinding noSeverityFinding 5 emptyDB)).by_severity
      "unknown" = none) ∧
    (recordGet (getFindingSummary none (insertFinding noSeverityFinding 5 emptyDB)).by_confidence
      "unknown" = none) := by
  refine ⟨by decide, by decide, by decide, by decide⟩

/-- Claim C8 (amended): `insertFinding` stores an absent severity as
`medium` and an absent confidence as `possible`, and `getFindingSummary`
counts the finding under those buckets (never under `unknown`, which
only collects stored NULLs that `insertFinding` cannot produce). -/
theorem insertFinding_default_buckets (s : DBState) (f : FindingInput) (now : Int)
    (hsev : f.severity = none) (hconf : f.confidence = none) :
    ((insertFinding f now s).findings.getLast?.map (fun r => (r.severity, r.confidence))) =
      some (some "medium", some "possible") ∧
    recordGet (getFindingSummary none (insertFinding f now s)).by_severity "medium" =
      some ((insertFinding f now s).findings.countP (fun r => r.severity == some "medium")) ∧
    0 < (insertFinding f now s).findings.countP (fun r => r.severity == some "medium") ∧
    recordGet (getFindingSummary none (insertFinding f now s)).by_confidence "possible" =
      some ((insertFinding f now s).findings.countP (fun r => r.confidence == some "possible")) ∧
    0 < (insertFinding f now s).findings.countP (fun r => r.confidence == some "possible") := by
  have hmem : ∀ rest : List FindingRow, ∀ row : FindingRow, row ∈ rest ++ [row] :=
    fun rest row => List.mem_append_right _ (List.mem_singleton_self row)
  refine ⟨?_, ?_, ?_, ?_, ?_⟩
  · simp only [insertFinding, updateSessionFindingCount]
    rw [List.getLast?_concat]
    simp [hsev, hconf, jsOrStr]
  · simp only [getFindingSummary, bySession]
    refine summary_bucket_lookup _ _ _ (by decide) (by decide) ?_
    simp only [insertFinding, updateSessionFindingCount]
    exact ⟨_, hmem _ _, by simp [hsev, jsOrStr]⟩
  · refine List.countP_pos_iff.mpr ?_
    simp only [insertFinding, updateSessionFindingCount]
    exact ⟨_, hmem _ _, by simp [hsev, jsOrStr]⟩
  · simp only [getFindingSummary, bySession]
    refine summary_bucket_lookup _ _ _ (by decide) (by decide) ?_
    simp only [insertFinding, updateSessionFindingCount]
    exact ⟨_, hmem _ _, by simp [hconf, jsOrStr]⟩
  · refine List.countP_pos_iff.mpr ?_
    simp only [insertFinding, updateSessionFindingCount]
    exact ⟨_, hmem _ _, by simp [hconf, jsOrStr]⟩

/-- Witness for the amended C8 at the concrete severity-less finding. -/
theorem insertFinding_default_buckets_witness :
    noSeverityFinding.severity = none ∧ noSeverityFinding.confidence = none ∧
    (((insertFinding noSeverityFinding 5 emptyDB).findings.getLast?.map
        (fun r => (r.severity, r.confidence))) = some (some "medium", some "possible") ∧
     recordGet (getFindingSummary none (insertFinding noSeverityFinding 5 emptyDB)).by_severity
        "medium" = some ((insertFinding noSeverityFinding 5 emptyDB).findings.countP
          (fun r => r.severity == some "medium")) ∧
     0 < (insertFinding noSeverityFinding 5 emptyDB).findings.countP
        (fun r => r.severity == some "medium") ∧
     recordGet (getFindingSummary none (insertFinding noSeverityFinding 5 emptyDB)).by_confidence
        "possible" = some ((insertFinding noSeverityFinding 5 emptyDB).findings.countP
          (fun r => r.confidence == some "possible")) ∧
     0 < (insertFinding noSeverityFinding 5 emptyDB).findings.countP
        (fun r => r.confidence == some "possible")) :=
  ⟨rfl, rfl, insertFinding_default_buckets emptyDB noSeverityFinding 5 rfl rfl⟩

theorem chain'_of_strChainGt : ∀ (l : List String), strChainGt l = true → List.Chain' sqlGt l := by
  intro l
  induction l with
  | nil => intro h; exact List.chain'_nil
  | cons a t ih =>
    cases t with
    | nil => intro h; simp
    | cons b rest =>
      intro h
      rw [strChainGt, Bool.and_eq_true] at h
      exact List.chain'_cons.mpr ⟨of_decide_eq_true h.1, ih h.2⟩

set_option maxRecDepth 40000 in
/-- Counterexample to claim C9: with 301 distinct session ids, the
session `"100"` owns the single most recent event (timestamp 9999, all
others are older), yet it is absent from the 300 returned session ids —
the query keeps the 300 lexicographically greatest ids (`ORDER BY
session_id DESC LIMIT 300`), not the most recent 300. -/
theorem filter_options_most_recent_claim_false :
    ((manySessionState.events.filter (fun e => e.session_id == "100")).map (·.timestamp) =
      [9999]) ∧
    (manySessionState.events.all (fun e => e.timestamp ≤ 9999) = true) ∧
    (manySessionState.events.countP (fun e => 9999 ≤ e.timestamp) = 1) ∧
    ((getFilterOptions manySessionState).session_ids.length = 300) ∧
    ("100" ∉ (getFilterOptions manySessionState).session_ids) := by
  have hmap : manySessionState.events.map (·.session_id) = manySessionIds := by
    simp only [manySessionState, manySessionIds, List.map_map]
    rfl
  have hchain : strChainGt manySessionIds = true := by decide
  have hpair : List.Pairwise sqlGt manySessionIds :=
    List.chain'_iff_pairwise.mp (chain'_of_strChainGt _ hchain)
  have hnodup : manySessionIds.Nodup := by
    refine hpair.imp ?_
    intro a b h he
    rw [he] at h
    exact lt_irrefl _ h
  have hsorted : List.Sorted sqlGe manySessionIds := by
    refine hpair.imp ?_
    intro a b h
    exact le_of_lt h
  have hids : (getFilterOptions manySessionState).session_ids = manySessionIds.take 300 := by
    simp only [getFilterOptions]
    rw [hmap, List.dedup_eq_self.mpr hnodup, List.Sorted.insertionSort_eq hsorted]
  have hlen : manySessionIds.length = 301 := by
    simp [manySessionIds]
  have hdrop : manySessionIds.drop 300 = ["100"] := by decide
  refine ⟨by decide, by decide, by decide, ?_, ?_⟩
  · rw [hids, List.length_take, hlen]
    decide
  · rw [hids]
    intro hin
    have hnd2 : (manySessionIds.take 300 ++ manySessionIds.drop 300).Nodup := by
      rw [List.take_append_drop]
      exact hnodup
    exact (List.nodup_append.mp hnd2).2.2 hin (by rw [hdrop]; exact List.mem_singleton_self _)

/-- Claim C9 (amended): `getFilterOptions` returns the distinct
`source_app` and `hook_event_type` values each sorted ascending, and the
300 greatest distinct `session_id` values in descending lexicographic
order — a limit by sort order, not by recency. -/
theorem filter_options_shape (s : DBState) :
    List.Sorted sqlLe (getFilterOptions s).source_apps ∧
    (getFilterOptions s).source_apps.Nodup ∧
    (∀ a, a ∈ (getFilterOptions s).source_apps ↔ a ∈ s.events.map (·.source_app)) ∧
    List.Sorted sqlLe (getFilterOptions s).hook_event_types ∧
    (getFilterOptions s).hook_event_types.Nodup ∧
    (∀ a, a ∈ (getFilterOptions s).hook_event_types ↔ a ∈ s.events.map (·.hook_event_type)) ∧
    List.Sorted sqlGe (getFilterOptions s).session_ids ∧
    (getFilterOptions s).session_ids.Nodup ∧
    (getFilterOptions s).session_ids.length ≤ 300 ∧
    (∀ a ∈ (getFilterOptions s).session_ids, a ∈ s.events.map (·.session_id)) ∧
    (∀ a ∈ (getFilterOptions s).session_ids, ∀ b ∈ s.events.map (·.session_id),
      b ∉ (getFilterOptions s).session_ids → sqlGe a b) := by
  simp only [getFilterOptions]
  refine ⟨List.sorted_insertionSort _ _,
    (List.perm_insertionSort sqlLe _).symm.nodup (List.nodup_dedup _),
    ?_,
    List.sorted_insertionSort _ _,
    (List.perm_insertionSort sqlLe _).symm.nodup (List.nodup_dedup _),
    ?_, ?_, ?_, ?_, ?_, ?_⟩
  · intro a
    rw [(List.perm_insertionSort sqlLe _).mem_iff, List.mem_dedup]
  · intro a
    rw [(List.perm_insertionSort sqlLe _).mem_iff, List.mem_dedup]
  · exact List.Pairwise.sublist (List.take_sublist _ _) (List.sorted_insertionSort sqlGe _)
  · exact List.Nodup.sublist (List.take_sublist _ _)
      ((List.perm_insertionSort sqlGe _).symm.nodup (List.nodup_dedup _))
  · exact List.length_take_le _ _
  · intro a ha
    have := List.mem_of_mem_take ha
    rw [(List.perm_insertionSort sqlGe _).mem_iff, List.mem_dedup] at this
    exact this
  · intro a ha b hb hnb
    have hbL : b ∈ List.insertionSort sqlGe (s.events.map (·.session_id)).dedup :=
      (List.perm_insertionSort sqlGe _).mem_iff.mpr (List.mem_dedup.mpr hb)
    rw [← List.take_append_drop 300
      (List.insertionSort sqlGe (s.events.map (·.session_id)).dedup)] at hbL
    have hbdrop : b ∈ (List.insertionSort sqlGe (s.events.map (·.session_id)).dedup).drop 300 := by
      rcases List.mem_append.mp hbL with h | h
      · exact absurd h hnb
      · exact h
    have hpw : List.Pairwise sqlGe
        ((List.insertionSort sqlGe (s.events.map (·.session_id)).dedup).take 300 ++
         (List.insertionSort sqlGe (s.events.map (·.session_id)).dedup).drop 300) := by
      rw [List.take_append_drop]
      exact List.sorted_insertionSort sqlGe _
    exact (List.pairwise_append.mp hpw).2.2 a ha b hbdrop

/-- Witness for the amended C9 at a store with one stored event. -/
theorem filter_options_shape_witness :
    List.Sorted sqlGe (getFilterOptions respondedEventState).session_ids ∧
    (∀ a ∈ (getFilterOptions respondedEventState).session_ids,
      a ∈ respondedEventState.events.map (·.session_id)) :=
  ⟨(filter_options_shape respondedEventState).2.2.2.2.2.2.1,
   (filter_options_shape respondedEventState).2.2.2.2.2.2.2.2.2.1⟩
